import Mathlib

/-!
# Verification of the `water` WebAssembly parser/validator

A shallow embedding, in Lean 4, of the parts of the `water` crate that the
checked claims are about:

* the byte-cursor primitives of `src/readers/binary.rs` (LEB128 decoding,
  value types, …), modelled as functions on a `List Nat` of bytes (each byte
  a `Nat < 256`); a reader's mutable `position` is modelled by returning the
  remaining suffix of the byte list together with the parsed value;
* the instruction decoder of `src/readers/instruction.rs`;
* the generic section-item iterator of `src/readers/common.rs`;
* the parser state machine of `src/parser.rs`;
* the module validator context of `src/validators/module.rs` and the
  function-body type checker of `src/validators/code.rs`.

Rust's `Result<T, E>` is modelled by `Except E T`; `u32` overflow is
modelled with explicit `% 2 ^ 32` where the Rust code can wrap.
-/

namespace Water

/-- `ValueType` of `src/types.rs` (i32, i64, f32, f64). -/
inductive ValueType where
  | i32
  | i64
  | f32
  | f64
deriving DecidableEq, Repr

/-- `FunctionType` of `src/types.rs`: parameter and result value types. -/
structure FunctionType where
  params : List ValueType
  results : List ValueType
deriving DecidableEq, Repr

/-- `GlobalType` of `src/types.rs`. -/
structure GlobalType where
  var_type : ValueType
  mutable : Bool
deriving DecidableEq, Repr

/-- `Limits` of `src/types.rs` (`min: u32`, optional `max: u32`). -/
structure Limits where
  min : Nat
  max : Option Nat
deriving DecidableEq, Repr

/-- `TableType` of `src/types.rs`. -/
structure TableType where
  limits : Limits
deriving DecidableEq, Repr

/-- `MemoryType` of `src/types.rs`. -/
structure MemoryType where
  limits : Limits
deriving DecidableEq, Repr

/-- `BlockType` of `src/types.rs`; the `TypeIndex` payload is the wrapped
`u32`, modelled as a `Nat`. -/
inductive BlockType where
  | empty
  | valueType (t : ValueType)
  | typeIndex (n : Nat)
deriving DecidableEq, Repr

/-- `MemoryArgument` of `src/types.rs`: alignment exponent and offset. -/
structure MemoryArgument where
  alignment : Nat
  offset : Nat
deriving DecidableEq, Repr

/-- `ImportDescriptor` of `src/types.rs`. -/
inductive ImportDescriptor where
  | func (type_index : Nat)
  | table (table_type : TableType)
  | memory (memory_type : MemoryType)
  | global (global_type : GlobalType)
deriving DecidableEq, Repr

/-- `Import` of `src/types.rs` (the validator only looks at the descriptor). -/
structure Import where
  module_name : String
  name : String
  import_descriptor : ImportDescriptor
deriving DecidableEq, Repr

/-- `BinaryReaderError` of `src/readers/binary.rs`. -/
inductive BinaryReaderError where
  | unexpectedEof
  | invalidU32
  | invalidS32
  | invalidS64
  | invalidS33
  | invalidUtf8
  | invalidElementTypeByte
  | invalidLimitsByte
  | invalidValueTypeByte
  | invalidMutableByte
deriving DecidableEq, Repr

/-! ## Byte cursor (`src/readers/binary.rs`)

A `BinaryReader` positioned in a buffer is modelled by the list of bytes
from its current position to the end of the buffer; every read returns the
parsed value together with the remaining bytes. -/

/-- `BinaryReader::read_byte`. -/
def read_byte : List Nat → Except BinaryReaderError (Nat × List Nat)
  | [] => .error .unexpectedEof
  | b :: rest => .ok (b, rest)

/-- `BinaryReader::read_bytes(n)`: `ensure_has_bytes` then advance. -/
def read_bytes (n : Nat) (bytes : List Nat) :
    Except BinaryReaderError (List Nat × List Nat) :=
  if n ≤ bytes.length then .ok (bytes.take n, bytes.drop n)
  else .error .unexpectedEof

/-- The loop of `BinaryReader::read_leb128_u32`.  `shift` and the
accumulated `result` are the loop-carried state; `result` is a `u32`, so
the update `result |= (byte & 0x7f) << shift` is truncated to 32 bits. -/
def read_leb128_u32_loop : List Nat → Nat → Nat →
    Except BinaryReaderError (Nat × List Nat)
  | [], _, _ => .error .unexpectedEof
  | b :: rest, shift, result =>
    let result := (result ||| ((b &&& 0x7f) <<< shift)) % 2 ^ 32
    -- The fifth byte's 4 high bits must be zero
    if shift = 28 ∧ b >>> 4 ≠ 0 then .error .invalidU32
    else if b &&& 0x80 = 0 then .ok (result, rest)
    else read_leb128_u32_loop rest (shift + 7) result

/-- `BinaryReader::read_leb128_u32` (the same algorithm is `read_u32` in
`src/binary_reader.rs`). -/
def read_leb128_u32 (bytes : List Nat) :
    Except BinaryReaderError (Nat × List Nat) :=
  read_leb128_u32_loop bytes 0 0

/-- The canonical unsigned LEB128 encoding of a `u32` (the `encode_u32`
reference encoder used by the crate's round-trip tests). -/
def encode_u32 (n : Nat) : List Nat :=
  if h : n < 128 then [n]
  else (n % 128 + 128) :: encode_u32 (n / 128)
termination_by n
decreasing_by exact Nat.div_lt_self (by omega) (by omega)

/-! ### Arithmetic facts about `&&&`, `|||`, `<<<` used for LEB128 -/

/-- Bitwise-or with a shifted value is addition when the low bits are free. -/
theorem lor_shiftLeft_eq_add (a b n : Nat) (h : a < 2 ^ n) :
    a ||| (b <<< n) = a + b * 2 ^ n := by
  have h2 : (0:Nat) < 2 ^ n := Nat.pos_pow_of_pos n (by norm_num)
  apply Nat.eq_of_testBit_eq
  intro i
  rw [Nat.testBit_or, Nat.testBit_shiftLeft]
  rcases Nat.lt_or_ge i n with hi | hi
  · have hni : ¬ n ≤ i := by omega
    have hdiv : (a + b * 2 ^ n) / 2 ^ i = a / 2 ^ i + b * 2 ^ (n - i) := by
      have hsplit : b * 2 ^ n = b * 2 ^ (n - i) * 2 ^ i := by
        rw [mul_assoc, ← pow_add, Nat.sub_add_cancel (Nat.le_of_lt hi)]
      rw [hsplit, Nat.add_mul_div_right _ _ (Nat.pos_pow_of_pos i (by norm_num))]
    have hmod : b * 2 ^ (n - i) % 2 = 0 := by
      have hp : (2:Nat) ^ (n - i) = 2 * 2 ^ (n - i - 1) := by
        have he : n - i = n - i - 1 + 1 := by omega
        rw [he, pow_succ', Nat.add_sub_cancel]
      rw [hp, mul_comm 2 (2 ^ (n - i - 1)), ← mul_assoc, Nat.mul_mod_left]
    have hbit : (a + b * 2 ^ n).testBit i = a.testBit i := by
      rw [Nat.testBit_to_div_mod, Nat.testBit_to_div_mod, hdiv]
      have hx : (a / 2 ^ i + b * 2 ^ (n - i)) % 2 = a / 2 ^ i % 2 := by omega
      rw [hx]
    rw [hbit]
    simp [hni]
  · have ha : a.testBit i = false :=
      Nat.testBit_lt_two_pow (lt_of_lt_of_le h (Nat.pow_le_pow_right (by norm_num) hi))
    have hdivn : (a + b * 2 ^ n) / 2 ^ n = b := by
      rw [Nat.add_mul_div_right _ _ h2, Nat.div_eq_of_lt h, Nat.zero_add]
    have hbit : (a + b * 2 ^ n).testBit i = b.testBit (i - n) := by
      rw [Nat.testBit_to_div_mod, Nat.testBit_to_div_mod]
      have hsplit : (2:Nat) ^ i = 2 ^ n * 2 ^ (i - n) := by
        rw [← pow_add, Nat.add_sub_cancel' hi]
      rw [hsplit, ← Nat.div_div_eq_div_mul, hdivn]
    rw [hbit, ha]
    simp [hi]

/-- Masking with `0x7f` is reduction modulo 128. -/
theorem and_127_eq_mod (a : Nat) : a &&& 127 = a % 128 := by
  have := Nat.and_pow_two_sub_one_eq_mod a 7
  simpa using this

/-- The continuation bit test: `a &&& 0x80 = 0` iff bit 7 of `a` is clear. -/
theorem and_128_eq_zero_iff (a : Nat) : a &&& 128 = 0 ↔ a % 256 < 128 := by
  have h : a &&& 128 = (a.testBit 7).toNat * 128 := by
    have := Nat.and_two_pow a 7
    simpa using this
  rw [h, Nat.testBit_to_div_mod]
  by_cases hb : a / 128 % 2 = 1
  · simp [hb]
    omega
  · simp [hb]
    omega

/-- The loop of `read_leb128_u32` decodes a canonical encoding placed after
`shift` already-consumed low bits. -/
theorem read_leb128_u32_loop_encode (x : Nat) :
    ∀ shift acc rest, shift ≤ 28 → 7 ∣ shift → acc < 2 ^ shift →
      x < 2 ^ (32 - shift) →
      read_leb128_u32_loop (encode_u32 x ++ rest) shift acc =
        .ok (acc + x * 2 ^ shift, rest) := by
  induction x using Nat.strong_induction_on with
  | _ x ih =>
    intro shift acc rest hshift hdvd hacc hx
    by_cases hsmall : x < 128
    · rw [encode_u32, dif_pos hsmall]
      have hand : x &&& 127 = x := by
        rw [and_127_eq_mod, Nat.mod_eq_of_lt hsmall]
      have hcont : x &&& 128 = 0 := by
        rw [and_128_eq_zero_iff]
        omega
      have hlor : acc ||| (x <<< shift) = acc + x * 2 ^ shift :=
        lor_shiftLeft_eq_add acc x shift hacc
      have hlt32 : acc + x * 2 ^ shift < 2 ^ 32 := by
        have h1 : acc + x * 2 ^ shift < (x + 1) * 2 ^ shift := by
          have := Nat.pos_pow_of_pos shift (show 0 < 2 by norm_num)
          nlinarith
        have h2 : (x + 1) * 2 ^ shift ≤ 2 ^ (32 - shift) * 2 ^ shift := by
          have : x + 1 ≤ 2 ^ (32 - shift) := hx
          exact Nat.mul_le_mul_right _ this
        have h3 : (2:Nat) ^ (32 - shift) * 2 ^ shift = 2 ^ 32 := by
          rw [← pow_add]
          congr 1
          omega
        omega
      have hguard : ¬ (shift = 28 ∧ x >>> 4 ≠ 0) := by
        rintro ⟨h28, hne⟩
        apply hne
        subst h28
        have : x < 16 := by
          have : (2:Nat) ^ (32 - 28) = 16 := by norm_num
          omega
        simp [Nat.shiftRight_eq_div_pow]
        omega
      simp only [List.singleton_append, read_leb128_u32_loop, hand, hlor,
        if_neg hguard]
      rw [Nat.mod_eq_of_lt hlt32, if_pos hcont]
      simp
    · have hb : x % 128 + 128 &&& 127 = x % 128 := by
        rw [and_127_eq_mod]
        omega
      have hcont : ¬ (x % 128 + 128 &&& 128 = 0) := by
        rw [and_128_eq_zero_iff]
        omega
      have h28 : shift ≠ 28 := by
        intro h28
        subst h28
        have : (2:Nat) ^ (32 - 28) = 16 := by norm_num
        omega
      have hguard : ¬ (shift = 28 ∧ (x % 128 + 128) >>> 4 ≠ 0) := by
        rintro ⟨h, _⟩
        exact h28 h
      have hshift7 : shift ≤ 21 := by
        rcases hdvd with ⟨k, hk⟩
        omega
      have hlt32 : acc + x % 128 * 2 ^ shift < 2 ^ (shift + 7) := by
        have h3 : (2:Nat) ^ (shift + 7) = 2 ^ shift * 128 := by
          rw [pow_add]
          norm_num
        have hm : x % 128 ≤ 127 := by omega
        nlinarith [Nat.pos_pow_of_pos shift (show 0 < 2 by norm_num)]
      have hlor : acc ||| ((x % 128) <<< shift) = acc + x % 128 * 2 ^ shift :=
        lor_shiftLeft_eq_add acc (x % 128) shift hacc
      have hmodeq : (acc + x % 128 * 2 ^ shift) % 2 ^ 32 =
          acc + x % 128 * 2 ^ shift := by
        apply Nat.mod_eq_of_lt
        have : (2:Nat) ^ (shift + 7) ≤ 2 ^ 32 := Nat.pow_le_pow_right (by norm_num) (by omega)
        omega
      have hxdiv : x / 128 < 2 ^ (32 - (shift + 7)) := by
        have h3 : (2:Nat) ^ (32 - shift) = 2 ^ (32 - (shift + 7)) * 128 := by
          rw [show (128:Nat) = 2 ^ 7 by norm_num, ← pow_add]
          congr 1
          omega
        have hdvd128 : (128:Nat) ∣ 2 ^ (32 - shift) := ⟨2 ^ (32 - (shift + 7)), by omega⟩
        have hlt := Nat.div_lt_div_of_lt_of_dvd hdvd128 hx
        omega
      have hrec := ih (x / 128) (Nat.div_lt_self (by omega) (by norm_num))
        (shift + 7) (acc + x % 128 * 2 ^ shift) rest (by omega)
        (by rcases hdvd with ⟨k, hk⟩; exact ⟨k + 1, by omega⟩) hlt32 hxdiv
      rw [encode_u32, dif_neg hsmall]
      have hfinal : acc + x % 128 * 2 ^ shift + x / 128 * 2 ^ (shift + 7) =
          acc + x * 2 ^ shift := by
        have h3 : (2:Nat) ^ (shift + 7) = 2 ^ shift * 128 := by
          rw [pow_add]
          norm_num
        have h4 := Nat.div_add_mod x 128
        calc acc + x % 128 * 2 ^ shift + x / 128 * 2 ^ (shift + 7)
            = acc + x % 128 * 2 ^ shift + x / 128 * (2 ^ shift * 128) := by
              rw [h3]
          _ = acc + (128 * (x / 128) + x % 128) * 2 ^ shift := by ring
          _ = acc + x * 2 ^ shift := by rw [h4]
      simp only [List.cons_append, read_leb128_u32_loop, hb, hlor, hmodeq,
        if_neg hguard, if_neg hcont, List.append_eq]
      rw [hrec, hfinal]

/-- **C7.** For every `x < 2 ^ 32`, decoding the canonical LEB128 encoding
of `x` with `read_leb128_u32` returns `x` and consumes exactly the
encoding's bytes (everything appended after the encoding is left over);
and every 5-byte input whose first four bytes have their continuation bits
set and whose 5th byte has any of its top four bits set is rejected with
`InvalidU32`. -/
theorem c7_leb128_u32_roundtrip_and_invalid :
    (∀ x rest, x < 2 ^ 32 →
      read_leb128_u32 (encode_u32 x ++ rest) = .ok (x, rest)) ∧
    (∀ b0 b1 b2 b3 b4 : Nat,
      b0 &&& 128 ≠ 0 → b1 &&& 128 ≠ 0 → b2 &&& 128 ≠ 0 → b3 &&& 128 ≠ 0 →
      b4 >>> 4 ≠ 0 →
      read_leb128_u32 [b0, b1, b2, b3, b4] = .error .invalidU32) := by
  constructor
  · intro x rest hx
    have := read_leb128_u32_loop_encode x 0 0 rest (by norm_num) ⟨0, rfl⟩
      (by norm_num) (by simpa using hx)
    simpa [read_leb128_u32] using this
  · intro b0 b1 b2 b3 b4 h0 h1 h2 h3 h4
    simp [read_leb128_u32, read_leb128_u32_loop, h0, h1, h2, h3, h4]

/-- Witness for C7 at `x = 300` (a two-byte encoding) and at the 5-byte
input `80 80 80 80 10`. -/
theorem c7_witness :
    read_leb128_u32 (encode_u32 300 ++ [7]) = .ok (300, [7]) ∧
    read_leb128_u32 [0x80, 0x80, 0x80, 0x80, 0x10] = .error .invalidU32 :=
  ⟨c7_leb128_u32_roundtrip_and_invalid.1 300 [7] (by norm_num),
   c7_leb128_u32_roundtrip_and_invalid.2 0x80 0x80 0x80 0x80 0x10
     (by decide) (by decide) (by decide) (by decide) (by decide)⟩

/-! ## Signed LEB128 readers

Rust's `i32`/`i64` loop registers are modelled by their bit patterns
(`Nat` reduced mod `2 ^ 32` / `2 ^ 64`); re-interpretation as a signed
value and the arithmetic shifts of the sign-extension step are made
explicit. -/

/-- Re-interpret a `u8` bit pattern as Rust's `i8`. -/
def toI8 (n : Nat) : Int :=
  if n % 256 < 128 then (n % 256 : Nat) else (n % 256 : Nat) - 256

/-- Re-interpret a `u32` bit pattern as Rust's `i32`. -/
def toI32 (n : Nat) : Int :=
  if n % 2 ^ 32 < 2 ^ 31 then (n % 2 ^ 32 : Nat) else (n % 2 ^ 32 : Nat) - 2 ^ 32

/-- Re-interpret a `u64` bit pattern as Rust's `i64`. -/
def toI64 (n : Nat) : Int :=
  if n % 2 ^ 64 < 2 ^ 63 then (n % 2 ^ 64 : Nat) else (n % 2 ^ 64 : Nat) - 2 ^ 64

/-- Rust's `(byte << 1) as i8 >> k` on a byte `b`: shift the `u8` left by
one (wrapping), re-interpret as `i8`, arithmetic-shift right by `k`. -/
def sign_and_unused_bits (b : Nat) (k : Nat) : Int :=
  toI8 ((b <<< 1) % 256) >>> k

/-- Rust's `(result << unused) >> unused` on an `i32` register holding the
bit pattern `result`: wrapping shift left, then arithmetic shift right. -/
def i32_shl_shr (result unused : Nat) : Int :=
  toI32 ((result <<< unused) % 2 ^ 32) >>> unused

/-- Rust's `(result << unused) >> unused` on an `i64` register holding the
bit pattern `result`. -/
def i64_shl_shr (result unused : Nat) : Int :=
  toI64 ((result <<< unused) % 2 ^ 64) >>> unused

/-- The loop of `BinaryReader::read_leb128_s32` (= `read_s32` of
`src/binary_reader.rs`); `result` is the `i32` register's bit pattern. -/
def read_leb128_s32_loop : List Nat → Nat → Nat →
    Except BinaryReaderError (Int × List Nat)
  | [], _, _ => .error .unexpectedEof
  | b :: rest, shift, result =>
    let result := (result ||| ((b &&& 0x7f) <<< shift)) % 2 ^ 32
    if shift = 28 then
      if b &&& 0x80 ≠ 0 ∨
          (sign_and_unused_bits b 4 ≠ 0 ∧ sign_and_unused_bits b 4 ≠ -1) then
        .error .invalidS32
      else
        .ok (toI32 result, rest)
    else if b &&& 0x80 = 0 then
      .ok (i32_shl_shr result (32 - (shift + 7)), rest)
    else
      read_leb128_s32_loop rest (shift + 7) result

/-- `BinaryReader::read_leb128_s32`. -/
def read_leb128_s32 (bytes : List Nat) :
    Except BinaryReaderError (Int × List Nat) :=
  read_leb128_s32_loop bytes 0 0

/-- The loop of `BinaryReader::read_leb128_s33` (= `read_s33` of
`src/binary_reader.rs`); the result register is an `i64`. -/
def read_leb128_s33_loop : List Nat → Nat → Nat →
    Except BinaryReaderError (Int × List Nat)
  | [], _, _ => .error .unexpectedEof
  | b :: rest, shift, result =>
    let result := (result ||| ((b &&& 0x7f) <<< shift)) % 2 ^ 64
    if shift = 28 then
      if b &&& 0x80 ≠ 0 ∨
          (sign_and_unused_bits b 5 ≠ 0 ∧ sign_and_unused_bits b 5 ≠ -1) then
        .error .invalidS33
      else
        -- extend the sign bit to all the unused bits (64 - 33 of them)
        .ok (i64_shl_shr result (64 - 33), rest)
    else if b &&& 0x80 = 0 then
      .ok (i64_shl_shr result (64 - (shift + 7)), rest)
    else
      read_leb128_s33_loop rest (shift + 7) result

/-- `BinaryReader::read_leb128_s33` (= `read_s33` of
`src/binary_reader.rs`). -/
def read_leb128_s33 (bytes : List Nat) :
    Except BinaryReaderError (Int × List Nat) :=
  read_leb128_s33_loop bytes 0 0

/-- The loop of `BinaryReader::read_leb128_s64` (= `read_s64` of
`src/binary_reader.rs`). -/
def read_leb128_s64_loop : List Nat → Nat → Nat →
    Except BinaryReaderError (Int × List Nat)
  | [], _, _ => .error .unexpectedEof
  | b :: rest, shift, result =>
    let result := (result ||| ((b &&& 0x7f) <<< shift)) % 2 ^ 64
    if shift = 63 then
      if b &&& 0x80 ≠ 0 ∨
          (sign_and_unused_bits b 1 ≠ 0 ∧ sign_and_unused_bits b 1 ≠ -1) then
        .error .invalidS64
      else
        .ok (toI64 result, rest)
    else if b &&& 0x80 = 0 then
      .ok (i64_shl_shr result (64 - (shift + 7)), rest)
    else
      read_leb128_s64_loop rest (shift + 7) result

/-- `BinaryReader::read_leb128_s64`. -/
def read_leb128_s64 (bytes : List Nat) :
    Except BinaryReaderError (Int × List Nat) :=
  read_leb128_s64_loop bytes 0 0

/-! ## Typed container reads (`src/readers/binary.rs`) -/

/-- `BinaryReader::read_f32`: four little-endian bytes (the IEEE-754 value
is represented here by its raw bytes; nothing downstream inspects it). -/
def read_f32 (bytes : List Nat) :
    Except BinaryReaderError (List Nat × List Nat) :=
  read_bytes 4 bytes

/-- `BinaryReader::read_f64`: eight little-endian bytes. -/
def read_f64 (bytes : List Nat) :
    Except BinaryReaderError (List Nat × List Nat) :=
  read_bytes 8 bytes

/-- `BinaryReader::read_double_word`: a fixed-width little-endian `u32`. -/
def read_double_word (bytes : List Nat) :
    Except BinaryReaderError (Nat × List Nat) :=
  match bytes with
  | b0 :: b1 :: b2 :: b3 :: rest =>
    .ok (b0 % 256 + (b1 % 256) * 256 + (b2 % 256) * 65536 + (b3 % 256) * 16777216, rest)
  | _ => .error .unexpectedEof

/-- `BinaryReader::read_value_type` of `src/readers/binary.rs`: on an
unknown byte the cursor position is restored, which in this model simply
means the caller keeps using the original byte list. -/
def read_value_type : List Nat → Except BinaryReaderError (ValueType × List Nat)
  | [] => .error .unexpectedEof
  | b :: rest =>
    match b with
    | 0x7F => .ok (.i32, rest)
    | 0x7E => .ok (.i64, rest)
    | 0x7D => .ok (.f32, rest)
    | 0x7C => .ok (.f64, rest)
    | _ => .error .invalidValueTypeByte

/-- `BinaryReader::read_mutable_byte`. -/
def read_mutable_byte (bytes : List Nat) :
    Except BinaryReaderError (Bool × List Nat) :=
  match read_byte bytes with
  | .error e => .error e
  | .ok (0x00, rest) => .ok (false, rest)
  | .ok (0x01, rest) => .ok (true, rest)
  | .ok (_, _) => .error .invalidMutableByte

/-- `BinaryReader::read_global_type`. -/
def read_global_type (bytes : List Nat) :
    Except BinaryReaderError (GlobalType × List Nat) :=
  match read_value_type bytes with
  | .error e => .error e
  | .ok (tp, rest) =>
    match read_mutable_byte rest with
    | .error e => .error e
    | .ok (mutable, rest') => .ok (⟨tp, mutable⟩, rest')

/-- `BinaryReader::read_limits`. -/
def read_limits (bytes : List Nat) :
    Except BinaryReaderError (Limits × List Nat) :=
  match read_byte bytes with
  | .error e => .error e
  | .ok (0x00, rest) =>
    match read_leb128_u32 rest with
    | .error e => .error e
    | .ok (min, rest') => .ok (⟨min, none⟩, rest')
  | .ok (0x01, rest) =>
    match read_leb128_u32 rest with
    | .error e => .error e
    | .ok (min, rest') =>
      match read_leb128_u32 rest' with
      | .error e => .error e
      | .ok (max, rest'') => .ok (⟨min, some max⟩, rest'')
  | .ok (_, _) => .error .invalidLimitsByte

/-- `BinaryReader::read_table_type`. -/
def read_table_type (bytes : List Nat) :
    Except BinaryReaderError (TableType × List Nat) :=
  match read_byte bytes with
  | .error e => .error e
  | .ok (0x70, rest) =>
    match read_limits rest with
    | .error e => .error e
    | .ok (limits, rest') => .ok (⟨limits⟩, rest')
  | .ok (_, _) => .error .invalidElementTypeByte

/-- `BinaryReader::read_memory_type`. -/
def read_memory_type (bytes : List Nat) :
    Except BinaryReaderError (MemoryType × List Nat) :=
  match read_limits bytes with
  | .error e => .error e
  | .ok (limits, rest) => .ok (⟨limits⟩, rest)

/-- `BinaryReader::read_bytes_vec`: a LEB128 length followed by that many
raw bytes. -/
def read_bytes_vec (bytes : List Nat) :
    Except BinaryReaderError (List Nat × List Nat) :=
  match read_leb128_u32 bytes with
  | .error e => .error e
  | .ok (len, rest) => read_bytes len rest

/-- `str::from_utf8` validity of a byte list, via Lean's UTF-8 decoder. -/
def utf8Decode (bytes : List Nat) : Option String :=
  String.fromUTF8? (ByteArray.mk (bytes.map (fun b => Nat.toUInt8 b)).toArray)

/-- `BinaryReader::read_string`: LEB128 length, then that many bytes which
must decode as UTF-8. -/
def read_string (bytes : List Nat) :
    Except BinaryReaderError (String × List Nat) :=
  match read_bytes_vec bytes with
  | .error e => .error e
  | .ok (strBytes, rest) =>
    match utf8Decode strBytes with
    | some s => .ok (s, rest)
    | none => .error .invalidUtf8

/-! ## Instructions (`src/types.rs`, `src/readers/instruction.rs`) -/

/-- `BranchTableReader` of `src/readers/branch_table.rs`: the `num_labels`
count read at construction and the reader's remaining bytes (the label
indices, `num_labels + 1` of them, the last being the default). -/
structure BranchTableReader where
  num_labels : Nat
  bytes : List Nat
deriving DecidableEq, Repr

/-- `BranchTableReader::get_num_labels` (the table plus the default). -/
def BranchTableReader.get_num_labels (r : BranchTableReader) : Nat :=
  r.num_labels + 1

/-- `Instruction` of `src/types.rs`: the full MVP opcode set plus
sign-extension and saturating-truncation instructions.  Typed indices are
modelled by the wrapped `u32` as a `Nat`; `i32.const`/`i64.const` payloads
are the decoded signed values; `f32.const`/`f64.const` payloads are the raw
little-endian bytes (nothing downstream inspects the IEEE value). -/
inductive Instruction where
  | unreachable
  | nop
  | block (block_type : BlockType)
  | loop (block_type : BlockType)
  | if_ (block_type : BlockType)
  | else_
  | end_
  | branch (label_index : Nat)
  | branchIf (label_index : Nat)
  | branchTable (branch_table_reader : BranchTableReader)
  | return_
  | call (func_index : Nat)
  | callIndirect (type_index : Nat)
  | drop
  | select
  | localGet (local_index : Nat)
  | localSet (local_index : Nat)
  | localTee (local_index : Nat)
  | globalGet (global_index : Nat)
  | globalSet (global_index : Nat)
  | i32Load (memory_argument : MemoryArgument)
  | i64Load (memory_argument : MemoryArgument)
  | f32Load (memory_argument : MemoryArgument)
  | f64Load (memory_argument : MemoryArgument)
  | i32Load8s (memory_argument : MemoryArgument)
  | i32Load8u (memory_argument : MemoryArgument)
  | i32Load16s (memory_argument : MemoryArgument)
  | i32Load16u (memory_argument : MemoryArgument)
  | i64Load8s (memory_argument : MemoryArgument)
  | i64Load8u (memory_argument : MemoryArgument)
  | i64Load16s (memory_argument : MemoryArgument)
  | i64Load16u (memory_argument : MemoryArgument)
  | i64Load32s (memory_argument : MemoryArgument)
  | i64Load32u (memory_argument : MemoryArgument)
  | i32Store (memory_argument : MemoryArgument)
  | i64Store (memory_argument : MemoryArgument)
  | f32Store (memory_argument : MemoryArgument)
  | f64Store (memory_argument : MemoryArgument)
  | i32Store8 (memory_argument : MemoryArgument)
  | i32Store16 (memory_argument : MemoryArgument)
  | i64Store8 (memory_argument : MemoryArgument)
  | i64Store16 (memory_argument : MemoryArgument)
  | i64Store32 (memory_argument : MemoryArgument)
  | memorySize
  | memoryGrow
  | i32Const (val : Int)
  | i64Const (val : Int)
  | f32Const (le_bytes : List Nat)
  | f64Const (le_bytes : List Nat)
  | i32Eqz
  | i32Eq
  | i32Ne
  | i32Lts
  | i32Ltu
  | i32Gts
  | i32Gtu
  | i32Les
  | i32Leu
  | i32Ges
  | i32Geu
  | i64Eqz
  | i64Eq
  | i64Ne
  | i64Lts
  | i64Ltu
  | i64Gts
  | i64Gtu
  | i64Les
  | i64Leu
  | i64Ges
  | i64Geu
  | f32Eq
  | f32Ne
  | f32Lt
  | f32Gt
  | f32Le
  | f32Ge
  | f64Eq
  | f64Ne
  | f64Lt
  | f64Gt
  | f64Le
  | f64Ge
  | i32Clz
  | i32Ctz
  | i32Popcnt
  | i32Add
  | i32Sub
  | i32Mul
  | i32Divs
  | i32Divu
  | i32Rems
  | i32Remu
  | i32And
  | i32Or
  | i32Xor
  | i32Shl
  | i32Shrs
  | i32Shru
  | i32Rotl
  | i32Rotr
  | i64Clz
  | i64Ctz
  | i64Popcnt
  | i64Add
  | i64Sub
  | i64Mul
  | i64Divs
  | i64Divu
  | i64Rems
  | i64Remu
  | i64And
  | i64Or
  | i64Xor
  | i64Shl
  | i64Shrs
  | i64Shru
  | i64Rotl
  | i64Rotr
  | f32Abs
  | f32Neg
  | f32Ceil
  | f32Floor
  | f32Trunc
  | f32Nearest
  | f32Sqrt
  | f32Add
  | f32Sub
  | f32Mul
  | f32Div
  | f32Min
  | f32Max
  | f32Copysign
  | f64Abs
  | f64Neg
  | f64Ceil
  | f64Floor
  | f64Trunc
  | f64Nearest
  | f64Sqrt
  | f64Add
  | f64Sub
  | f64Mul
  | f64Div
  | f64Min
  | f64Max
  | f64Copysign
  | i32WrapI64
  | i32TruncF32s
  | i32TruncF32u
  | i32TruncF64s
  | i32TruncF64u
  | i64ExtendI32s
  | i64ExtendI32u
  | i64TruncF32s
  | i64TruncF32u
  | i64TruncF64s
  | i64TruncF64u
  | f32ConvertI32s
  | f32ConvertI32u
  | f32ConvertI64s
  | f32ConvertI64u
  | f32DemoteF64
  | f64ConvertI32s
  | f64ConvertI32u
  | f64ConvertI64s
  | f64ConvertI64u
  | f64PromoteF32
  | i32ReinterpretF32
  | i64ReinterpretF64
  | f32ReinterpretI32
  | f64ReinterpretI64
  | i32Extend8s
  | i32Extend16s
  | i64Extend8s
  | i64Extend16s
  | i64Extend32s
  | i32TruncSatF32s
  | i32TruncSatF32u
  | i32TruncSatF64s
  | i32TruncSatF64u
  | i64TruncSatF32s
  | i64TruncSatF32u
  | i64TruncSatF64s
  | i64TruncSatF64u

/-- `InstructionReaderError` of `src/readers/instruction.rs`. -/
inductive InstructionReaderError where
  | binaryReaderError (e : BinaryReaderError)
  | invalidInstruction
  | invalidBlockTypeIndex
  | invalidMemorySizeByte
  | invalidSatOpCode
deriving DecidableEq, Repr

/-- The label-skipping loop of `BranchTableReader::skip_br_table`: skip `k`
LEB128 `u32` values. -/
def skip_br_table_labels : Nat → List Nat →
    Except BinaryReaderError (List Nat)
  | 0, rest => .ok rest
  | k + 1, rest =>
    match read_leb128_u32 rest with
    | .error e => .error e
    | .ok (_, rest') => skip_br_table_labels k rest'

/-- `BranchTableReader::skip_br_table`: scan `num_labels` label indices and
the default label, and return the byte span `(start, end)` of the whole
immediate (here: the spanned bytes and the remaining ones). -/
def skip_br_table (bytes : List Nat) :
    Except BinaryReaderError (List Nat × List Nat) :=
  match read_leb128_u32 bytes with
  | .error e => .error e
  | .ok (num_labels, rest) =>
    match skip_br_table_labels (num_labels + 1) rest with
    | .error e => .error e
    | .ok rest' => .ok (bytes.take (bytes.length - rest'.length), rest')

/-- `BranchTableReader::new`: a fresh reader over the spanned slice, with
the label count re-read from its start. -/
def BranchTableReader.new (buffer : List Nat) :
    Except BinaryReaderError BranchTableReader :=
  match read_leb128_u32 buffer with
  | .error e => .error e
  | .ok (num_labels, rest) => .ok ⟨num_labels, rest⟩

/-- `BinaryReader::create_branch_table_reader`. -/
def create_branch_table_reader (bytes : List Nat) :
    Except BinaryReaderError (BranchTableReader × List Nat) :=
  match skip_br_table bytes with
  | .error e => .error e
  | .ok (span, rest) =>
    match BranchTableReader.new span with
    | .error e => .error e
    | .ok r => .ok (r, rest)

/-- `InstructionReader::read_memory_argument`: alignment exponent and
offset, two LEB128 `u32`s. -/
def read_memory_argument (bytes : List Nat) :
    Except InstructionReaderError (MemoryArgument × List Nat) :=
  match read_leb128_u32 bytes with
  | .error e => .error (.binaryReaderError e)
  | .ok (alignment, rest) =>
    match read_leb128_u32 rest with
    | .error e => .error (.binaryReaderError e)
    | .ok (offset, rest') => .ok (⟨alignment, offset⟩, rest')

/-- `InstructionReader::read_block_type`: try a value type first (restoring
the position on failure); otherwise `0x40` is the empty block type, and any
other byte is consumed before an `s33` type index is decoded from the bytes
after it (the source does not rewind to re-read that byte as part of the
`s33`).  The index must fit in `[0, 2^32 - 1]`. -/
def read_block_type (bytes : List Nat) :
    Except InstructionReaderError (BlockType × List Nat) :=
  match read_value_type bytes with
  | .ok (val_type, rest) => .ok (.valueType val_type, rest)
  | .error _ =>
    match read_byte bytes with
    | .error e => .error (.binaryReaderError e)
    | .ok (0x40, rest) => .ok (.empty, rest)
    | .ok (_, rest) =>
      match read_leb128_s33 rest with
      | .error e => .error (.binaryReaderError e)
      | .ok (index, rest') =>
        if index < 0 ∨ index > 4294967295 then .error .invalidBlockTypeIndex
        else .ok (.typeIndex index.toNat, rest')

/-- The arms of `InstructionReader::read` whose instruction has no
immediate: opcode to instruction. -/
def nullary_opcode : Nat → Option Instruction
  | 0x0 => some .unreachable
  | 0x1 => some .nop
  | 0x5 => some .else_
  | 0xb => some .end_
  | 0xf => some .return_
  | 0x1a => some .drop
  | 0x1b => some .select
  | 0x45 => some .i32Eqz
  | 0x46 => some .i32Eq
  | 0x47 => some .i32Ne
  | 0x48 => some .i32Lts
  | 0x49 => some .i32Ltu
  | 0x4a => some .i32Gts
  | 0x4b => some .i32Gtu
  | 0x4c => some .i32Les
  | 0x4d => some .i32Leu
  | 0x4e => some .i32Ges
  | 0x4f => some .i32Geu
  | 0x50 => some .i64Eqz
  | 0x51 => some .i64Eq
  | 0x52 => some .i64Ne
  | 0x53 => some .i64Lts
  | 0x54 => some .i64Ltu
  | 0x55 => some .i64Gts
  | 0x56 => some .i64Gtu
  | 0x57 => some .i64Les
  | 0x58 => some .i64Leu
  | 0x59 => some .i64Ges
  | 0x5a => some .i64Geu
  | 0x5b => some .f32Eq
  | 0x5c => some .f32Ne
  | 0x5d => some .f32Lt
  | 0x5e => some .f32Gt
  | 0x5f => some .f32Le
  | 0x60 => some .f32Ge
  | 0x61 => some .f64Eq
  | 0x62 => some .f64Ne
  | 0x63 => some .f64Lt
  | 0x64 => some .f64Gt
  | 0x65 => some .f64Le
  | 0x66 => some .f64Ge
  | 0x67 => some .i32Clz
  | 0x68 => some .i32Ctz
  | 0x69 => some .i32Popcnt
  | 0x6a => some .i32Add
  | 0x6b => some .i32Sub
  | 0x6c => some .i32Mul
  | 0x6d => some .i32Divs
  | 0x6e => some .i32Divu
  | 0x6f => some .i32Rems
  | 0x70 => some .i32Remu
  | 0x71 => some .i32And
  | 0x72 => some .i32Or
  | 0x73 => some .i32Xor
  | 0x74 => some .i32Shl
  | 0x75 => some .i32Shrs
  | 0x76 => some .i32Shru
  | 0x77 => some .i32Rotl
  | 0x78 => some .i32Rotr
  | 0x79 => some .i64Clz
  | 0x7a => some .i64Ctz
  | 0x7b => some .i64Popcnt
  | 0x7c => some .i64Add
  | 0x7d => some .i64Sub
  | 0x7e => some .i64Mul
  | 0x7f => some .i64Divs
  | 0x80 => some .i64Divu
  | 0x81 => some .i64Rems
  | 0x82 => some .i64Remu
  | 0x83 => some .i64And
  | 0x84 => some .i64Or
  | 0x85 => some .i64Xor
  | 0x86 => some .i64Shl
  | 0x87 => some .i64Shrs
  | 0x88 => some .i64Shru
  | 0x89 => some .i64Rotl
  | 0x8a => some .i64Rotr
  | 0x8b => some .f32Abs
  | 0x8c => some .f32Neg
  | 0x8d => some .f32Ceil
  | 0x8e => some .f32Floor
  | 0x8f => some .f32Trunc
  | 0x90 => some .f32Nearest
  | 0x91 => some .f32Sqrt
  | 0x92 => some .f32Add
  | 0x93 => some .f32Sub
  | 0x94 => some .f32Mul
  | 0x95 => some .f32Div
  | 0x96 => some .f32Min
  | 0x97 => some .f32Max
  | 0x98 => some .f32Copysign
  | 0x99 => some .f64Abs
  | 0x9a => some .f64Neg
  | 0x9b => some .f64Ceil
  | 0x9c => some .f64Floor
  | 0x9d => some .f64Trunc
  | 0x9e => some .f64Nearest
  | 0x9f => some .f64Sqrt
  | 0xa0 => some .f64Add
  | 0xa1 => some .f64Sub
  | 0xa2 => some .f64Mul
  | 0xa3 => some .f64Div
  | 0xa4 => some .f64Min
  | 0xa5 => some .f64Max
  | 0xa6 => some .f64Copysign
  | 0xa7 => some .i32WrapI64
  | 0xa8 => some .i32TruncF32s
  | 0xa9 => some .i32TruncF32u
  | 0xaa => some .i32TruncF64s
  | 0xab => some .i32TruncF64u
  | 0xac => some .i64ExtendI32s
  | 0xad => some .i64ExtendI32u
  | 0xae => some .i64TruncF32s
  | 0xaf => some .i64TruncF32u
  | 0xb0 => some .i64TruncF64s
  | 0xb1 => some .i64TruncF64u
  | 0xb2 => some .f32ConvertI32s
  | 0xb3 => some .f32ConvertI32u
  | 0xb4 => some .f32ConvertI64s
  | 0xb5 => some .f32ConvertI64u
  | 0xb6 => some .f32DemoteF64
  | 0xb7 => some .f64ConvertI32s
  | 0xb8 => some .f64ConvertI32u
  | 0xb9 => some .f64ConvertI64s
  | 0xba => some .f64ConvertI64u
  | 0xbb => some .f64PromoteF32
  | 0xbc => some .i32ReinterpretF32
  | 0xbd => some .i64ReinterpretF64
  | 0xbe => some .f32ReinterpretI32
  | 0xbf => some .f64ReinterpretI64
  | 0xc0 => some .i32Extend8s
  | 0xc1 => some .i32Extend16s
  | 0xc2 => some .i64Extend8s
  | 0xc3 => some .i64Extend16s
  | 0xc4 => some .i64Extend32s
  | _ => none

/-- The arms of `InstructionReader::read` carrying a `MemoryArgument`
immediate (opcodes `0x28`–`0x3E`): opcode to instruction constructor. -/
def memarg_opcode : Nat → Option (MemoryArgument → Instruction)
  | 0x28 => some .i32Load
  | 0x29 => some .i64Load
  | 0x2a => some .f32Load
  | 0x2b => some .f64Load
  | 0x2c => some .i32Load8s
  | 0x2d => some .i32Load8u
  | 0x2e => some .i32Load16s
  | 0x2f => some .i32Load16u
  | 0x30 => some .i64Load8s
  | 0x31 => some .i64Load8u
  | 0x32 => some .i64Load16s
  | 0x33 => some .i64Load16u
  | 0x34 => some .i64Load32s
  | 0x35 => some .i64Load32u
  | 0x36 => some .i32Store
  | 0x37 => some .i64Store
  | 0x38 => some .f32Store
  | 0x39 => some .f64Store
  | 0x3a => some .i32Store8
  | 0x3b => some .i32Store16
  | 0x3c => some .i64Store8
  | 0x3d => some .i64Store16
  | 0x3e => some .i64Store32
  | _ => none

/-- The arms of `InstructionReader::read` carrying a single LEB128 `u32`
immediate (a label, function, type, local or global index).  The `0x11`
(`call_indirect`) arm reads only its type index: the source reads no
table-zero byte. -/
def u32_imm_opcode : Nat → Option (Nat → Instruction)
  | 0xc => some .branch
  | 0xd => some .branchIf
  | 0x10 => some .call
  | 0x11 => some .callIndirect
  | 0x20 => some .localGet
  | 0x21 => some .localSet
  | 0x22 => some .localTee
  | 0x23 => some .globalGet
  | 0x24 => some .globalSet
  | _ => none

/-- `InstructionReader::read`: decode one instruction.  The three tables
above hold the uniform arms of the source's single `match`; the remaining
arms (block forms, `br_table`, `memory.size`/`grow`, the constants and the
`0xFC` prefix) are matched here directly. -/
def InstructionReader.read (bytes : List Nat) :
    Except InstructionReaderError (Instruction × List Nat) :=
  match read_byte bytes with
  | .error e => .error (.binaryReaderError e)
  | .ok (op, r) =>
    match nullary_opcode op with
    | some instruction => .ok (instruction, r)
    | none =>
    match memarg_opcode op with
    | some mk =>
      (match read_memory_argument r with
       | .error e => .error e
       | .ok (memory_argument, r') => .ok (mk memory_argument, r'))
    | none =>
    match u32_imm_opcode op with
    | some mk =>
      (match read_leb128_u32 r with
       | .error e => .error (.binaryReaderError e)
       | .ok (n, r') => .ok (mk n, r'))
    | none =>
    match op with
    | 0x02 =>
      match read_block_type r with
      | .error e => .error e
      | .ok (block_type, r') => .ok (.block block_type, r')
    | 0x03 =>
      match read_block_type r with
      | .error e => .error e
      | .ok (block_type, r') => .ok (.loop block_type, r')
    | 0x04 =>
      match read_block_type r with
      | .error e => .error e
      | .ok (block_type, r') => .ok (.if_ block_type, r')
    | 0x0E =>
      match create_branch_table_reader r with
      | .error e => .error (.binaryReaderError e)
      | .ok (branch_table_reader, r') => .ok (.branchTable branch_table_reader, r')
    | 0x3F =>
      match read_byte r with
      | .ok (0x00, r') => .ok (.memorySize, r')
      | _ => .error .invalidMemorySizeByte
    | 0x40 =>
      match read_byte r with
      | .ok (0x00, r') => .ok (.memoryGrow, r')
      | _ => .error .invalidMemorySizeByte
    | 0x41 =>
      match read_leb128_s32 r with
      | .error e => .error (.binaryReaderError e)
      | .ok (val, r') => .ok (.i32Const val, r')
    | 0x42 =>
      match read_leb128_s64 r with
      | .error e => .error (.binaryReaderError e)
      | .ok (val, r') => .ok (.i64Const val, r')
    | 0x43 =>
      match read_f32 r with
      | .error e => .error (.binaryReaderError e)
      | .ok (val, r') => .ok (.f32Const val, r')
    | 0x44 =>
      match read_f64 r with
      | .error e => .error (.binaryReaderError e)
      | .ok (val, r') => .ok (.f64Const val, r')
    | 0xFC =>
      match read_leb128_u32 r with
      | .error e => .error (.binaryReaderError e)
      | .ok (sub, r') =>
        match sub with
        | 0 => .ok (.i32TruncSatF32s, r')
        | 1 => .ok (.i32TruncSatF32u, r')
        | 2 => .ok (.i32TruncSatF64s, r')
        | 3 => .ok (.i32TruncSatF64u, r')
        | 4 => .ok (.i64TruncSatF32s, r')
        | 5 => .ok (.i64TruncSatF32u, r')
        | 6 => .ok (.i64TruncSatF64s, r')
        | 7 => .ok (.i64TruncSatF64u, r')
        | _ => .error .invalidSatOpCode
    | _ => .error .invalidInstruction


/-- **C5** (code bug).  Decoding `block` whose block-type immediate is the
single-byte type index `1` (byte `0x01`, not a value-type byte and not
`0x40`), followed by the `end` opcode `0x0B`: the reader consumes the
`0x01` byte and then decodes the `s33` from the *next* byte instead of
rewinding, so it returns `TypeIndex 11` (the decoded `0x0B`), having
swallowed the `end` opcode — not `TypeIndex 1` as the specification's
"rewind that byte and read an s33" requires. -/
theorem c5_block_type_index_not_rewound :
    InstructionReader.read [0x02, 0x01, 0x0B] =
      .ok (.block (.typeIndex 11), []) := rfl

/-- **C6** (code bug).  Decoding opcode `0x11` (`call_indirect`) reads only
the type-index immediate: with input `11 00 01`, the reader returns
`CallIndirect 0` and leaves the byte `0x01` unconsumed instead of reading a
mandatory `0x00` table-zero byte and rejecting the `0x01`. -/
theorem c6_call_indirect_no_table_byte :
    InstructionReader.read [0x11, 0x00, 0x01] =
      .ok (.callIndirect 0, [0x01]) := rfl

/-! ## Section-item iterator (`src/readers/common.rs`)

`SectionItemIterator<R>` is generic over a reader `R`; here the reader
type, its item/error types and its `read` step are parameters.  The same
`next` logic is used verbatim by `BranchTableLabelsIterator` in
`src/readers/branch_table.rs` (with `remaining_items = num_labels + 1`). -/

/-- `SectionItemIterator` of `src/readers/common.rs`. -/
structure SectionItemIterator (σ : Type u) where
  reader : σ
  error : Bool
  remaining_items : Nat

/-- `SectionItemIterator::new`: remember the reader's item count. -/
def SectionItemIterator.new {σ : Type u} (get_count : σ → Nat) (reader : σ) :
    SectionItemIterator σ :=
  ⟨reader, false, get_count reader⟩

/-- `Iterator::next` for `SectionItemIterator`: `read` is the reader's
(stateful) `read` method. -/
def SectionItemIterator.next {σ : Type u} {ε α : Type v}
    (read : σ → Except ε α × σ) (it : SectionItemIterator σ) :
    Option (Except ε α) × SectionItemIterator σ :=
  if it.remaining_items = 0 ∨ it.error then (none, it)
  else
    let result := (read it.reader).1
    let reader := (read it.reader).2
    (some result,
     ⟨reader,
      (match result with | .error _ => true | .ok _ => false),
      it.remaining_items - 1⟩)

/-- A `next` that yields an item decrements `remaining_items`. -/
theorem SectionItemIterator.next_some_remaining {σ : Type u} {ε α : Type v}
    (read : σ → Except ε α × σ) (it : SectionItemIterator σ)
    (x : Except ε α) (it' : SectionItemIterator σ)
    (h : SectionItemIterator.next read it = (some x, it')) :
    it'.remaining_items < it.remaining_items := by
  unfold SectionItemIterator.next at h
  split at h
  · simp at h
  · rename_i hcond
    simp only [Prod.mk.injEq] at h
    obtain ⟨-, h2⟩ := h
    subst h2
    simp only [not_or] at hcond
    dsimp only
    omega

/-- The full item sequence an iterator yields when driven to exhaustion. -/
def SectionItemIterator.run {σ : Type u} {ε α : Type v}
    (read : σ → Except ε α × σ) (it : SectionItemIterator σ) :
    List (Except ε α) :=
  match h : SectionItemIterator.next read it with
  | (none, _) => []
  | (some x, it') => x :: SectionItemIterator.run read it'
termination_by it.remaining_items
decreasing_by exact SectionItemIterator.next_some_remaining read it _ _ (by assumption)

/-- `run` yields at most `remaining_items` items. -/
theorem SectionItemIterator.run_length_le {σ : Type u} {ε α : Type v}
    (read : σ → Except ε α × σ) (it : SectionItemIterator σ) :
    (SectionItemIterator.run read it).length ≤ it.remaining_items := by
  rw [SectionItemIterator.run]
  split
  · simp
  · rename_i x it' h
    have hlt := SectionItemIterator.next_some_remaining read it x it' h
    have ih := SectionItemIterator.run_length_le read it'
    simp only [List.length_cons]
    omega
termination_by it.remaining_items
decreasing_by exact SectionItemIterator.next_some_remaining read it _ _ (by assumption)

/-- **C9.**  Every section sub-reader driven through `SectionItemIterator`
(and the branch-table label iterator, which uses the same `next` logic)
yields at most `count` items; after a yielded `Err` the `error` flag is
set, so `next` returns `None`, and a `None` answer leaves the iterator
unchanged — hence `None` forever after the first error, and iteration
terminates on every input. -/
theorem c9_section_item_iterator_bounded {σ : Type u} {ε α : Type v} :
    (∀ (get_count : σ → Nat) (read : σ → Except ε α × σ) (r : σ),
      (SectionItemIterator.run read (SectionItemIterator.new get_count r)).length ≤
        get_count r) ∧
    (∀ (read : σ → Except ε α × σ) (it it' : SectionItemIterator σ) (e : ε),
      SectionItemIterator.next read it = (some (.error e), it') →
      SectionItemIterator.next read it' = (none, it')) ∧
    (∀ (read : σ → Except ε α × σ) (it it' : SectionItemIterator σ),
      SectionItemIterator.next read it = (none, it') → it' = it) := by
  refine ⟨?_, ?_, ?_⟩
  · intro get_count read r
    exact SectionItemIterator.run_length_le read (SectionItemIterator.new get_count r)
  · intro read it it' e h
    unfold SectionItemIterator.next at h ⊢
    split at h
    · simp at h
    · simp only [Prod.mk.injEq] at h
      obtain ⟨h1, h2⟩ := h
      subst h2
      simp_all
  · intro read it it' h
    unfold SectionItemIterator.next at h
    split at h
    · simp only [Prod.mk.injEq] at h
      exact h.2.symm
    · simp at h

/-- Witness for C9 on a one-item reader over `Unit` whose `read` always
fails. -/
theorem c9_witness :
    (SectionItemIterator.run (fun _ : Unit => ((.error 0 : Except Nat Nat), ()))
      (SectionItemIterator.new (fun _ => 1) ())).length ≤ 1 ∧
    SectionItemIterator.next (fun _ : Unit => ((.error 0 : Except Nat Nat), ()))
      ⟨(), true, 1⟩ = (none, ⟨(), true, 1⟩) :=
  ⟨c9_section_item_iterator_bounded.1 (fun _ => 1)
     (fun _ => ((.error 0 : Except Nat Nat), ())) (),
   c9_section_item_iterator_bounded.2.1
     (fun _ => ((.error 0 : Except Nat Nat), ())) ⟨(), false, 2⟩
     ⟨(), true, 1⟩ 0 rfl⟩


/-! ## Parser (`src/parser.rs`) -/

/-- `PreambleReaderError` of `src/readers/preamble.rs`. -/
inductive PreambleReaderError where
  | binaryReaderError (e : BinaryReaderError)
  | badVersion
  | badMagicNumber
deriving DecidableEq, Repr

/-- `ParseError` of `src/parser.rs`. -/
inductive ParseError where
  | unneededBytes
  | binaryReader (e : BinaryReaderError)
  | preambleReader (e : PreambleReaderError)
deriving DecidableEq, Repr

/-- `PreambleReader::read_preamble` as `Parser::parse` consumes it:
4 magic bytes and a little-endian `u32` version, returned together with the
bytes consumed and without judging validity (the semantic check lives in
the validator). -/
def read_preamble (buffer : List Nat) :
    Except PreambleReaderError (Nat × List Nat × Nat) :=
  match read_bytes 4 buffer with
  | .error e => .error (.binaryReaderError e)
  | .ok (magic_number, rest) =>
    match read_double_word rest with
    | .error e => .error (.binaryReaderError e)
    | .ok (version, _) => .ok (8, magic_number, version)

/-- `SectionReader` of `src/parser.rs`: each numbered variant holds the
matching sub-reader, here its construction-time state (the item count read
from the front of the section body, and the bytes after it). -/
inductive SectionReader where
  | custom (name : String) (data : List Nat)
  | type_ (count : Nat) (rest : List Nat)
  | import_ (count : Nat) (rest : List Nat)
  | function (count : Nat) (rest : List Nat)
  | table (count : Nat) (rest : List Nat)
  | memory (count : Nat) (rest : List Nat)
  | global (count : Nat) (rest : List Nat)
  | export_ (count : Nat) (rest : List Nat)
  | start (func_index : Nat)
  | element (count : Nat) (rest : List Nat)
  | code (count : Nat) (rest : List Nat)
  | data (count : Nat) (rest : List Nat)
  | unknown (id : Nat)
deriving DecidableEq, Repr

/-- `Chunk` of `src/parser.rs`. -/
inductive Chunk where
  | preamble (magic : List Nat) (version : Nat)
  | section (reader : SectionReader)
  | done
deriving DecidableEq, Repr

/-- `Parser::create_section_reader`: section-id dispatch; every counted
sub-reader's `new` reads a LEB128 `u32` count from the front of the body,
the custom reader reads the name string, the start reader reads the
function index, and any other id is `Unknown(id)`. -/
def create_section_reader (buffer : List Nat) (id : Nat) :
    Except ParseError SectionReader :=
  match id with
  | 0 =>
    match read_string buffer with
    | .error e => .error (.binaryReader e)
    | .ok (name, rest) => .ok (.custom name rest)
  | 1 =>
    match read_leb128_u32 buffer with
    | .error e => .error (.binaryReader e)
    | .ok (count, rest) => .ok (.type_ count rest)
  | 2 =>
    match read_leb128_u32 buffer with
    | .error e => .error (.binaryReader e)
    | .ok (count, rest) => .ok (.import_ count rest)
  | 3 =>
    match read_leb128_u32 buffer with
    | .error e => .error (.binaryReader e)
    | .ok (count, rest) => .ok (.function count rest)
  | 4 =>
    match read_leb128_u32 buffer with
    | .error e => .error (.binaryReader e)
    | .ok (count, rest) => .ok (.table count rest)
  | 5 =>
    match read_leb128_u32 buffer with
    | .error e => .error (.binaryReader e)
    | .ok (count, rest) => .ok (.memory count rest)
  | 6 =>
    match read_leb128_u32 buffer with
    | .error e => .error (.binaryReader e)
    | .ok (count, rest) => .ok (.global count rest)
  | 7 =>
    match read_leb128_u32 buffer with
    | .error e => .error (.binaryReader e)
    | .ok (count, rest) => .ok (.export_ count rest)
  | 8 =>
    match read_leb128_u32 buffer with
    | .error e => .error (.binaryReader e)
    | .ok (func_index, _) => .ok (.start func_index)
  | 9 =>
    match read_leb128_u32 buffer with
    | .error e => .error (.binaryReader e)
    | .ok (count, rest) => .ok (.element count rest)
  | 10 =>
    match read_leb128_u32 buffer with
    | .error e => .error (.binaryReader e)
    | .ok (count, rest) => .ok (.code count rest)
  | 11 =>
    match read_leb128_u32 buffer with
    | .error e => .error (.binaryReader e)
    | .ok (count, rest) => .ok (.data count rest)
  | id => .ok (.unknown id)

/-- `ParserLocation` of `src/parser.rs`. -/
inductive ParserLocation where
  | moduleHeader
  | section_
  | end_
deriving DecidableEq, Repr

/-- `Parser::parse`: one step of the state machine, returning the new
location (the parser's mutated `self.location`) and the
`(consumed, Chunk)` result. -/
def Parser.parse (loc : ParserLocation) (buffer : List Nat) :
    ParserLocation × Except ParseError (Nat × Chunk) :=
  match loc with
  | .moduleHeader =>
    match read_preamble buffer with
    | .error e => (.moduleHeader, .error (.preambleReader e))
    | .ok (consumed, magic_number, version) =>
      (.section_, .ok (consumed, .preamble magic_number version))
  | .section_ =>
    if buffer.isEmpty then
      (.end_, .ok (0, .done))
    else
      match read_byte buffer with
      | .error e => (.section_, .error (.binaryReader e))
      | .ok (id, r) =>
        match read_bytes_vec r with
        | .error e => (.section_, .error (.binaryReader e))
        | .ok (bytes, rest) =>
          match create_section_reader bytes id with
          | .error e => (.section_, .error e)
          | .ok reader =>
            (.section_, .ok (buffer.length - rest.length, .section reader))
  | .end_ =>
    if ¬ buffer.isEmpty then
      (.end_, .error .unneededBytes)
    else
      (.end_, .ok (0, .done))

/-- **C8.**  Once the parser has emitted `Done` (which happens exactly when
the `Section` state sees an empty buffer, moving it to the `End` state),
every further `parse` call with an empty buffer returns `(0, Done)` and
every call with a non-empty buffer returns `UnneededBytes`; the parser
stays in the `End` state in both cases. -/
theorem c8_parser_end_state :
    Parser.parse .section_ [] = (.end_, .ok (0, .done)) ∧
    Parser.parse .end_ [] = (.end_, .ok (0, .done)) ∧
    (∀ buffer : List Nat, buffer ≠ [] →
      Parser.parse .end_ buffer = (.end_, .error .unneededBytes)) := by
  refine ⟨rfl, rfl, ?_⟩
  intro buffer h
  cases buffer with
  | nil => exact absurd rfl h
  | cons b rest => rfl

/-- Witness for C8 on the one-byte buffer `[0]`. -/
theorem c8_witness :
    Parser.parse .end_ [0] = (.end_, .error .unneededBytes) :=
  c8_parser_end_state.2.2 [0] (by simp)


/-! ## Module validation context (`src/validators/module.rs`) -/

/-- `TypeIndexValidationError` of `src/validators/type_index.rs`. -/
inductive TypeIndexValidationError where
  | invalidTypeIndex
deriving DecidableEq, Repr

/-- `validate_type_index` of `src/validators/type_index.rs`. -/
def validate_type_index (type_index : Nat) (max_type_index : Option Nat) :
    Except TypeIndexValidationError Unit :=
  match max_type_index with
  | some index => if type_index > index then .error .invalidTypeIndex else .ok ()
  | none => .error .invalidTypeIndex

/-- `ImportValidationError` of `src/validators/import.rs`. -/
inductive ImportValidationError where
  | invalidFuncTypeIndex
  | invalidTableLimits
  | invalidMemoryLimits
deriving DecidableEq, Repr

/-- `limits_in_range` of `src/validators/import.rs`. -/
def limits_in_range (limits : Limits) (range : Nat) : Bool :=
  decide (limits.min ≤ range) &&
    (match limits.max with
     | some max => decide (max ≤ range) && decide (limits.min ≤ max)
     | none => true)

/-- `validate_import_desc` of `src/validators/import.rs`: table limits must
fit `u32::max_value()`, memory limits must fit 65536 pages, a function
import's type index must be declared; global imports are not checked. -/
def validate_import_desc (import_desc : ImportDescriptor)
    (max_type_index : Option Nat) : Except ImportValidationError Unit :=
  match import_desc with
  | .func type_index =>
    match validate_type_index type_index max_type_index with
    | .error _ => .error .invalidFuncTypeIndex
    | .ok () => .ok ()
  | .table ⟨limits⟩ =>
    if ¬ limits_in_range limits 4294967295 then .error .invalidTableLimits
    else .ok ()
  | .memory ⟨limits⟩ =>
    if ¬ limits_in_range limits 65536 then .error .invalidMemoryLimits
    else .ok ()
  | .global _ => .ok ()

/-- `ValidationContext` of `src/validators/module.rs`. -/
structure ValidationContext where
  function_types : List FunctionType
  globals : List GlobalType
  function_type_indices : List Nat
  max_table_index : Option Nat
  max_memory_index : Option Nat
deriving DecidableEq, Repr

/-- `ValidationContext::new`. -/
def ValidationContext.new : ValidationContext :=
  ⟨[], [], [], none, none⟩

/-- `ValidationContext::get_max_type_index`. -/
def ValidationContext.get_max_type_index (ctx : ValidationContext) : Option Nat :=
  if ctx.function_types.isEmpty then none
  else some (ctx.function_types.length - 1)

/-- `ValidationContext::add_table_type`. -/
def ValidationContext.add_table_type (ctx : ValidationContext) : ValidationContext :=
  let next := match ctx.max_table_index with
    | none => 0
    | some current => current + 1
  { ctx with max_table_index := some next }

/-- `ValidationContext::add_memory_type`. -/
def ValidationContext.add_memory_type (ctx : ValidationContext) : ValidationContext :=
  let next := match ctx.max_memory_index with
    | none => 0
    | some current => current + 1
  { ctx with max_memory_index := some next }

/-- `ValidationContext::add_function_type`. -/
def ValidationContext.add_function_type (ctx : ValidationContext)
    (function_type : FunctionType) : ValidationContext :=
  { ctx with function_types := ctx.function_types ++ [function_type] }

/-- `ValidationContext::add_type_index`. -/
def ValidationContext.add_type_index (ctx : ValidationContext)
    (type_index : Nat) : ValidationContext :=
  { ctx with function_type_indices := ctx.function_type_indices ++ [type_index] }

/-- `ValidationContext::add_global_type`. -/
def ValidationContext.add_global_type (ctx : ValidationContext)
    (global_type : GlobalType) : ValidationContext :=
  { ctx with globals := ctx.globals ++ [global_type] }

/-- `ValidationContext::add_import_desc`.  In the source the `Func` arm's
`self.function_type_indices.push(*type_index)` is commented out, so a
function import leaves the context unchanged. -/
def ValidationContext.add_import_desc (ctx : ValidationContext) :
    ImportDescriptor → ValidationContext
  | .func _ => ctx
  | .table _ => ctx.add_table_type
  | .memory _ => ctx.add_memory_type
  | .global global_type => ctx.add_global_type global_type

/-- The `Type` arm of `Validator::validate`: append every function type
read from the section (no per-item validation). -/
def validate_type_section (function_types : List FunctionType)
    (ctx : ValidationContext) : ValidationContext :=
  match function_types with
  | [] => ctx
  | ft :: rest => validate_type_section rest (ctx.add_function_type ft)

/-- The `Import` arm of `Validator::validate`: validate each descriptor
against the current maximum type index, then add its effect. -/
def validate_import_section (imports : List Import)
    (ctx : ValidationContext) : Except ImportValidationError ValidationContext :=
  match imports with
  | [] => .ok ctx
  | i :: rest =>
    match validate_import_desc i.import_descriptor ctx.get_max_type_index with
    | .error e => .error e
    | .ok () => validate_import_section rest (ctx.add_import_desc i.import_descriptor)

/-- The `Function` arm of `Validator::validate`: each type index must be
declared, then it is appended to `function_type_indices`. -/
def validate_function_section (type_indices : List Nat)
    (ctx : ValidationContext) : Except TypeIndexValidationError ValidationContext :=
  match type_indices with
  | [] => .ok ctx
  | ti :: rest =>
    match validate_type_index ti ctx.get_max_type_index with
    | .error e => .error e
    | .ok () => validate_function_section rest (ctx.add_type_index ti)

/-- **C4** (code bug).  A module with two types, one imported function of
type 0 and one module-defined function of type 1: after the Import and
Function sections the context's `function_type_indices` is `[1]` — the
imported function's type index was never recorded (the push in
`add_import_desc` is commented out), so function index 0 resolves to the
module-defined function instead of the import, contradicting the
"imported functions precede module-defined ones" invariant. -/
theorem c4_import_func_type_index_dropped :
    validate_import_section [⟨"env", "f", .func 0⟩]
        (validate_type_section [⟨[], []⟩, ⟨[.i32], [.i32]⟩] ValidationContext.new) =
      .ok ⟨[⟨[], []⟩, ⟨[.i32], [.i32]⟩], [], [], none, none⟩ ∧
    validate_function_section [1]
        ⟨[⟨[], []⟩, ⟨[.i32], [.i32]⟩], [], [], none, none⟩ =
      .ok ⟨[⟨[], []⟩, ⟨[.i32], [.i32]⟩], [], [1], none, none⟩ :=
  ⟨rfl, rfl⟩


/-! ## Function-body type checker (`src/validators/code.rs`)

The operand stack and the control stack are modelled head-first: the head
of the Lean list is the **top** of the Rust `Vec` (its last element), so
`Vec::push`/`pop` are `cons`/uncons, `last()` is the list head, and
`truncate(h)` keeps the `h` elements deepest in the stack.

A Rust panic (an `unwrap` of `None`, or an out-of-bounds index) is not a
returned error; it is modelled by the two dedicated error values
`panicControlStack` (for `unwrap`/indexing on the control stack and the
`label.unwrap()` of the `br_table` arm) and `panicOperandStack` (for
`operand_stack.pop().unwrap()`), so that "never panics" becomes "never
returns these values". -/

/-- `Operand` of `src/validators/code.rs`. -/
inductive Operand where
  | known (t : ValueType)
  | unknown
deriving DecidableEq, Repr

/-- `Operand::is_known`. -/
def Operand.is_known : Operand → Bool
  | .known _ => true
  | .unknown => false

/-- `Operand::is_unknown`. -/
def Operand.is_unknown (op : Operand) : Bool :=
  ! op.is_known

/-- `CodeReaderError` of `src/readers/section/code.rs`. -/
inductive CodeReaderError where
  | binaryReaderError (e : BinaryReaderError)
deriving DecidableEq, Repr

/-- `BranchReaderError` of `src/readers/branch_table.rs`. -/
inductive BranchReaderError where
  | binaryReaderError (e : BinaryReaderError)
deriving DecidableEq, Repr

/-- `CodeValidationError` of `src/validators/code.rs`, extended with the
two panic markers described above. -/
inductive CodeValidationError where
  | codeReader (e : CodeReaderError)
  | instructionReader (e : InstructionReaderError)
  | branchReader (e : BranchReaderError)
  | invalidInitExpr
  | invalidGlobalIndex (g : Nat)
  | settingImmutableGlobal (g : Nat)
  | invalidLocalIndex (l : Nat)
  | invalidTypeIndex (t : Nat)
  | invalidFunctionIndex (f : Nat)
  | invalidLabelIndex (l : Nat)
  | undefinedMemory
  | undefinedTable
  | invalidMemoryAlignment
  | typeMismatch (expected actual : Operand)
  | targetLabelsTypeMismatch
  | valuesAtEndOfBlock
  | operandStackEmpty
  | panicControlStack
  | panicOperandStack
deriving DecidableEq, Repr

/-- `is_expr_const_and_of_right_type` of `src/validators/code.rs`, the
constant-expression check used by the Element and Data validators (the
Global validator's `validate_global_type` duplicates the same logic): one
producer whose type matches, then `End`, then a third read must fail. -/
def is_expr_const_and_of_right_type (bytes : List Nat)
    (expected_type : ValueType) (globals : List GlobalType) :
    Except CodeValidationError Unit :=
  match InstructionReader.read bytes with
  | .error e => .error (.instructionReader e)
  | .ok (instruction, rest) =>
    let const_type : Except CodeValidationError ValueType :=
      match instruction with
      | .i32Const _ => .ok .i32
      | .i64Const _ => .ok .i64
      | .f32Const _ => .ok .f32
      | .f64Const _ => .ok .f64
      | .globalGet global_index =>
        match globals.get? global_index with
        | some global => .ok global.var_type
        | none => .error .invalidInitExpr
      | _ => .error .invalidInitExpr
    match const_type with
    | .error e => .error e
    | .ok const_type =>
      if const_type ≠ expected_type then .error .invalidInitExpr
      else
        match InstructionReader.read rest with
        | .error e => .error (.instructionReader e)
        | .ok (.end_, rest') =>
          match InstructionReader.read rest' with
          | .ok _ => .error .invalidInitExpr
          | .error _ => .ok ()
        | .ok _ => .error .invalidInitExpr

/-- `ControlFrameKind` of `src/validators/code.rs`. -/
inductive ControlFrameKind where
  | block
  | if_
  | else_
  | loop
deriving DecidableEq, Repr

/-- `ControlFrame` of `src/validators/code.rs`. -/
structure ControlFrame where
  kind : ControlFrameKind
  block_type : BlockType
  height : Nat
  unreachable : Bool
deriving DecidableEq, Repr

/-- `CodeValidatorState` of `src/validators/code.rs`. -/
structure CodeValidatorState where
  operand_stack : List Operand
  control_stack : List ControlFrame
deriving DecidableEq, Repr

/-- `CodeValidatorState::new`: one outermost `Block` frame carrying the
function's type index. -/
def CodeValidatorState.new (type_index : Nat) : CodeValidatorState :=
  ⟨[], [⟨.block, .typeIndex type_index, 0, false⟩]⟩

/-- `CodeValidatorState::push_operand`. -/
def CodeValidatorState.push_operand (s : CodeValidatorState)
    (operand : Operand) : CodeValidatorState :=
  { s with operand_stack := operand :: s.operand_stack }

/-- `CodeValidatorState::push_known`. -/
def CodeValidatorState.push_known (s : CodeValidatorState)
    (operand : ValueType) : CodeValidatorState :=
  s.push_operand (.known operand)

/-- Push a list of value types in order (a `for … { push_known }` loop). -/
def CodeValidatorState.push_knowns (s : CodeValidatorState) :
    List ValueType → CodeValidatorState
  | [] => s
  | t :: rest => (s.push_known t).push_knowns rest

/-- `CodeValidatorState::pop_operand`:  at the current frame's height the
stack yields `Unknown` when unreachable and underflows otherwise; above it
the top operand is popped (`pop().unwrap()`). -/
def CodeValidatorState.pop_operand (s : CodeValidatorState) :
    Except CodeValidationError (Operand × CodeValidatorState) :=
  match s.control_stack with
  | [] => .error .panicControlStack
  | last :: _ =>
    if s.operand_stack.length = last.height then
      if last.unreachable then .ok (.unknown, s)
      else .error .operandStackEmpty
    else
      match s.operand_stack with
      | [] => .error .panicOperandStack
      | op :: rest => .ok (op, { s with operand_stack := rest })

/-- `CodeValidatorState::pop_expected`. -/
def CodeValidatorState.pop_expected (s : CodeValidatorState)
    (expected : Operand) :
    Except CodeValidationError (Operand × CodeValidatorState) :=
  match s.pop_operand with
  | .error e => .error e
  | .ok (actual, s') =>
    if actual.is_unknown then .ok (expected, s')
    else if expected.is_unknown then .ok (actual, s')
    else if actual ≠ expected then .error (.typeMismatch expected actual)
    else .ok (actual, s')

/-- `CodeValidatorState::pop_known`. -/
def CodeValidatorState.pop_known (s : CodeValidatorState)
    (expected : ValueType) :
    Except CodeValidationError (Operand × CodeValidatorState) :=
  s.pop_expected (.known expected)

/-- Pop a list of expected value types in order (a `for … { pop_known }`
loop over an iterator). -/
def CodeValidatorState.pop_knowns (s : CodeValidatorState) :
    List ValueType → Except CodeValidationError CodeValidatorState
  | [] => .ok s
  | t :: rest =>
    match s.pop_known t with
    | .error e => .error e
    | .ok (_, s') => s'.pop_knowns rest

/-- `CodeValidatorState::push_control_frame`. -/
def CodeValidatorState.push_control_frame (s : CodeValidatorState)
    (kind : ControlFrameKind) (block_type : BlockType) : CodeValidatorState :=
  { s with control_stack :=
      ⟨kind, block_type, s.operand_stack.length, false⟩ :: s.control_stack }

/-- `CodeValidatorState::pop_control_frame`: pop the frame's result types
(right-to-left), require the stack back at the frame's entry height, then
pop the frame itself. -/
def CodeValidatorState.pop_control_frame (s : CodeValidatorState)
    (function_types : List FunctionType) :
    Except CodeValidationError (ControlFrame × CodeValidatorState) :=
  match s.control_stack with
  | [] => .error .panicControlStack
  | last :: _ =>
    let popped : Except CodeValidationError CodeValidatorState :=
      match last.block_type with
      | .empty => .ok s
      | .valueType ty =>
        match s.pop_known ty with
        | .error e => .error e
        | .ok (_, s') => .ok s'
      | .typeIndex type_index =>
        match function_types.get? type_index with
        | none => .error (.invalidTypeIndex type_index)
        | some ty => s.pop_knowns ty.results.reverse
    match popped with
    | .error e => .error e
    | .ok s' =>
      if s'.operand_stack.length ≠ last.height then .error .valuesAtEndOfBlock
      else
        match s'.control_stack with
        | [] => .error .panicControlStack
        | f :: rest => .ok (f, { s' with control_stack := rest })

/-- `CodeValidatorState::get_local`. -/
def CodeValidatorState.get_local (locals : List ValueType)
    (local_index : Nat) : Except CodeValidationError ValueType :=
  match locals.get? local_index with
  | some local_type => .ok local_type
  | none => .error (.invalidLocalIndex local_index)

/-- `CodeValidatorState::get_global`. -/
def CodeValidatorState.get_global (globals : List GlobalType)
    (global_index : Nat) : Except CodeValidationError GlobalType :=
  match globals.get? global_index with
  | some global_type => .ok global_type
  | none => .error (.invalidGlobalIndex global_index)

/-- `CodeValidatorState::unreachable`: truncate the operand stack to the
current frame's height and flag the frame (`last_mut().unwrap()`). -/
def CodeValidatorState.unreachable (s : CodeValidatorState) :
    Except CodeValidationError CodeValidatorState :=
  match s.control_stack with
  | [] => .error .panicControlStack
  | last :: rest =>
    .ok ⟨s.operand_stack.drop (s.operand_stack.length - last.height),
         { last with unreachable := true } :: rest⟩

/-- `CodeValidatorState::validate_table_index`. -/
def validate_table_index (max_table_index : Option Nat) :
    Except CodeValidationError Unit :=
  if max_table_index.isNone then .error .undefinedTable else .ok ()

/-- `CodeValidatorState::validate_memory_index`. -/
def validate_memory_index (max_memory_index : Option Nat) :
    Except CodeValidationError Unit :=
  if max_memory_index.isNone then .error .undefinedMemory else .ok ()

/-- `CodeValidatorState::validate_memory_index_and_alignment`. -/
def validate_memory_index_and_alignment (max_memory_index : Option Nat)
    (memory_argument : MemoryArgument) (max_alignment : Nat) :
    Except CodeValidationError Unit :=
  match validate_memory_index max_memory_index with
  | .error e => .error e
  | .ok () =>
    if memory_argument.alignment > max_alignment then
      .error .invalidMemoryAlignment
    else .ok ()

/-- `CodeValidatorState::validate_load`. -/
def CodeValidatorState.validate_load (s : CodeValidatorState)
    (max_memory_index : Option Nat) (memory_argument : MemoryArgument)
    (max_alignment : Nat) (result_type : ValueType) :
    Except CodeValidationError CodeValidatorState :=
  match validate_memory_index_and_alignment max_memory_index memory_argument
      max_alignment with
  | .error e => .error e
  | .ok () =>
    match s.pop_known .i32 with
    | .error e => .error e
    | .ok (_, s') => .ok (s'.push_known result_type)

/-- `CodeValidatorState::validate_store`. -/
def CodeValidatorState.validate_store (s : CodeValidatorState)
    (max_memory_index : Option Nat) (memory_argument : MemoryArgument)
    (max_alignment : Nat) (param_type : ValueType) :
    Except CodeValidationError CodeValidatorState :=
  match validate_memory_index_and_alignment max_memory_index memory_argument
      max_alignment with
  | .error e => .error e
  | .ok () =>
    match s.pop_known param_type with
    | .error e => .error e
    | .ok (_, s') =>
      match s'.pop_known .i32 with
      | .error e => .error e
      | .ok (_, s'') => .ok s''

/-- `get_func_type_index` of `src/validators/code.rs`. -/
def get_func_type_index (function_type_indices : List Nat)
    (function_index : Nat) : Except CodeValidationError Nat :=
  match function_type_indices.get? function_index with
  | some func_type_index => .ok func_type_index
  | none => .error (.invalidFunctionIndex function_index)

/-- `get_func_type` of `src/validators/code.rs`. -/
def get_func_type (function_types : List FunctionType)
    (function_type_indices : List Nat) (function_index : Nat) :
    Except CodeValidationError FunctionType :=
  match get_func_type_index function_type_indices function_index with
  | .error e => .error e
  | .ok func_type_index =>
    match function_types.get? func_type_index with
    | some function_type => .ok function_type
    | none => .error (.invalidTypeIndex func_type_index)

/-- `CodeValidatorState::validate_function_type`: pop the parameters
right-to-left, push the results in order. -/
def CodeValidatorState.validate_function_type (s : CodeValidatorState)
    (ty : FunctionType) : Except CodeValidationError CodeValidatorState :=
  match s.pop_knowns ty.params.reverse with
  | .error e => .error e
  | .ok s' => .ok (s'.push_knowns ty.results)

/-- `BlockType::params` of `src/types.rs`: the parameter types a block type
contributes (only a `TypeIndex` block type has parameters). -/
def BlockType.params (bt : BlockType) (function_types : List FunctionType) :
    Except CodeValidationError (List ValueType) :=
  match bt with
  | .typeIndex type_index =>
    match function_types.get? type_index with
    | some function_type => .ok function_type.params
    | none => .error (.invalidTypeIndex type_index)
  | _ => .ok []

/-- `BlockType::results` of `src/types.rs`. -/
def BlockType.results (bt : BlockType) (function_types : List FunctionType) :
    Except CodeValidationError (List ValueType) :=
  match bt with
  | .empty => .ok []
  | .valueType ty => .ok [ty]
  | .typeIndex type_index =>
    match function_types.get? type_index with
    | some function_type => .ok function_type.results
    | none => .error (.invalidTypeIndex type_index)

/-- `CodeValidatorState::validate_block_type`: pop the block type's
parameters (in the order the source iterates them), then push the new
frame. -/
def CodeValidatorState.validate_block_type (s : CodeValidatorState)
    (kind : ControlFrameKind) (block_type : BlockType)
    (function_types : List FunctionType) :
    Except CodeValidationError CodeValidatorState :=
  match block_type.params function_types with
  | .error e => .error e
  | .ok params =>
    match s.pop_knowns params with
    | .error e => .error e
    | .ok s' => .ok (s'.push_control_frame kind block_type)

/-- `CodeValidatorState::validate_jump`: in the head-first model, the Rust
`Vec` element at index `(len - 1) - label_index` is list element
`label_index`; an underflow of `len - 1` or an out-of-bounds index is a
panic. -/
def CodeValidatorState.validate_jump (s : CodeValidatorState)
    (label_index : Nat) :
    Except CodeValidationError (ControlFrameKind × BlockType) :=
  if s.control_stack.length = 0 then .error .panicControlStack
  else if label_index > s.control_stack.length - 1 then
    .error (.invalidLabelIndex label_index)
  else
    match s.control_stack.get? label_index with
    | some frame => .ok (frame.kind, frame.block_type)
    | none => .error .panicControlStack

/-- `CodeValidatorState::get_label_types`: a `Loop` frame's label types are
its parameters; every other frame's are its results. -/
def get_label_types (kind : ControlFrameKind) (block_type : BlockType)
    (function_types : List FunctionType) :
    Except CodeValidationError (List ValueType) :=
  match kind with
  | .loop => block_type.params function_types
  | _ => block_type.results function_types


/-- The label-reading loop of the `BranchTable` arm: the branch-table
reader's labels iterator yields `num_labels + 1` LEB128 label indices, and
the `?` inside the loop propagates the first read error. -/
def read_branch_labels : Nat → List Nat →
    Except CodeValidationError (List Nat)
  | 0, _ => .ok []
  | k + 1, bytes =>
    match read_leb128_u32 bytes with
    | .error e => .error (.branchReader (.binaryReaderError e))
    | .ok (label, rest) =>
      match read_branch_labels k rest with
      | .error e => .error e
      | .ok labels => .ok (label :: labels)

/-- The target-uniformity loop of the `BranchTable` arm: remember the first
target's frame data and require every later target's label types to equal
the first's. -/
def validate_br_table_targets (s : CodeValidatorState)
    (function_types : List FunctionType) :
    List Nat → Option (ControlFrameKind × BlockType) →
    Except CodeValidationError (Option (ControlFrameKind × BlockType))
  | [], label => .ok label
  | label_index :: rest, label =>
    match s.validate_jump label_index with
    | .error e => .error e
    | .ok block =>
      match label with
      | none => validate_br_table_targets s function_types rest (some block)
      | some prev =>
        match get_label_types block.1 block.2 function_types with
        | .error e => .error e
        | .ok a =>
          match get_label_types prev.1 prev.2 function_types with
          | .error e => .error e
          | .ok b =>
            if a ≠ b then .error .targetLabelsTypeMismatch
            else validate_br_table_targets s function_types rest (some prev)

/-- `CodeValidatorState::validate_instruction`. -/
def validate_instruction (s : CodeValidatorState) (instruction : Instruction)
    (globals : List GlobalType) (locals : List ValueType)
    (function_types : List FunctionType) (function_type_indices : List Nat)
    (max_table_index : Option Nat) (max_memory_index : Option Nat) :
    Except CodeValidationError CodeValidatorState :=
  match instruction with
  | .unreachable => s.unreachable
  | .nop => .ok s
  | .block block_type =>
    s.validate_block_type .block block_type function_types
  | .loop block_type =>
    s.validate_block_type .loop block_type function_types
  | .if_ block_type =>
    match s.pop_known .i32 with
    | .error e => .error e
    | .ok (_, s1) => s1.validate_block_type .if_ block_type function_types
  | .else_ =>
    match s.pop_control_frame function_types with
    | .error e => .error e
    | .ok (frame, s1) => .ok (s1.push_control_frame .else_ frame.block_type)
  | .end_ => .ok s
  | .branch label_index =>
    match s.validate_jump label_index with
    | .error e => .error e
    | .ok (kind, block_type) =>
      match get_label_types kind block_type function_types with
      | .error e => .error e
      | .ok label_types =>
        match s.pop_knowns label_types.reverse with
        | .error e => .error e
        | .ok s1 => s1.unreachable
  | .branchIf label_index =>
    match s.validate_jump label_index with
    | .error e => .error e
    | .ok (kind, block_type) =>
      match get_label_types kind block_type function_types with
      | .error e => .error e
      | .ok label_types =>
        match s.pop_knowns label_types.reverse with
        | .error e => .error e
        | .ok s1 => (s1.push_knowns label_types).unreachable
  | .branchTable branch_table_reader =>
    match s.pop_known .i32 with
    | .error e => .error e
    | .ok (_, s1) =>
      match read_branch_labels (branch_table_reader.num_labels + 1)
          branch_table_reader.bytes with
      | .error e => .error e
      | .ok labels =>
        match validate_br_table_targets s1 function_types labels none with
        | .error e => .error e
        | .ok none => .error .panicControlStack
        | .ok (some (kind, block_type)) =>
          match get_label_types kind block_type function_types with
          | .error e => .error e
          | .ok label_types =>
            match s1.pop_knowns label_types.reverse with
            | .error e => .error e
            | .ok s2 => s2.unreachable
  | .return_ =>
    match s.control_stack.getLast? with
    | none => .error .panicControlStack
    | some frame =>
      let popped : Except CodeValidationError CodeValidatorState :=
        match frame.block_type with
        | .empty => .ok s
        | .valueType ty =>
          match s.pop_known ty with
          | .error e => .error e
          | .ok (_, s') => .ok s'
        | .typeIndex type_index =>
          match function_types.get? type_index with
          | some ty => s.pop_knowns ty.results.reverse
          | none => .error (.invalidTypeIndex type_index)
      match popped with
      | .error e => .error e
      | .ok s1 => s1.unreachable
  | .call func_index =>
    match get_func_type function_types function_type_indices func_index with
    | .error e => .error e
    | .ok ty => s.validate_function_type ty
  | .callIndirect type_index =>
    match validate_table_index max_table_index with
    | .error e => .error e
    | .ok () =>
      match function_types.get? type_index with
      | some ty =>
        match s.pop_known .i32 with
        | .error e => .error e
        | .ok (_, s1) => s1.validate_function_type ty
      | none => .error (.invalidTypeIndex type_index)
  | .drop =>
    match s.pop_operand with
    | .error e => .error e
    | .ok (_, s1) => .ok s1
  | .select =>
    match s.pop_known .i32 with
    | .error e => .error e
    | .ok (_, s1) =>
      match s1.pop_operand with
      | .error e => .error e
      | .ok (first, s2) =>
        match s2.pop_operand with
        | .error e => .error e
        | .ok (second, s3) =>
          if first.is_unknown ∨ second.is_unknown ∨ first ≠ second then
            .error (.typeMismatch first second)
          else .ok (s3.push_operand second)
  | .localGet local_index =>
    match CodeValidatorState.get_local locals local_index with
    | .error e => .error e
    | .ok local_type => .ok (s.push_known local_type)
  | .localSet local_index =>
    match CodeValidatorState.get_local locals local_index with
    | .error e => .error e
    | .ok local_type =>
      match s.pop_known local_type with
      | .error e => .error e
      | .ok (_, s1) => .ok s1
  | .localTee local_index =>
    match CodeValidatorState.get_local locals local_index with
    | .error e => .error e
    | .ok local_type =>
      match s.pop_known local_type with
      | .error e => .error e
      | .ok (_, s1) => .ok (s1.push_known local_type)
  | .globalGet global_index =>
    match CodeValidatorState.get_global globals global_index with
    | .error e => .error e
    | .ok global_type => .ok (s.push_known global_type.var_type)
  | .globalSet global_index =>
    match CodeValidatorState.get_global globals global_index with
    | .error e => .error e
    | .ok global_type =>
      match s.pop_known global_type.var_type with
      | .error e => .error e
      | .ok (_, s1) =>
        if ¬ global_type.mutable then
          .error (.settingImmutableGlobal global_index)
        else .ok s1
  | .i32Load memory_argument =>
    s.validate_load max_memory_index memory_argument 2 .i32
  | .i64Load memory_argument =>
    s.validate_load max_memory_index memory_argument 3 .i64
  | .f32Load memory_argument =>
    s.validate_load max_memory_index memory_argument 2 .f32
  | .f64Load memory_argument =>
    s.validate_load max_memory_index memory_argument 3 .f64
  | .i32Load8s memory_argument =>
    s.validate_load max_memory_index memory_argument 0 .i32
  | .i32Load8u memory_argument =>
    s.validate_load max_memory_index memory_argument 0 .i32
  | .i32Load16s memory_argument =>
    s.validate_load max_memory_index memory_argument 1 .i32
  | .i32Load16u memory_argument =>
    s.validate_load max_memory_index memory_argument 1 .i32
  | .i64Load8s memory_argument =>
    s.validate_load max_memory_index memory_argument 0 .i64
  | .i64Load8u memory_argument =>
    s.validate_load max_memory_index memory_argument 0 .i64
  | .i64Load16s memory_argument =>
    s.validate_load max_memory_index memory_argument 1 .i64
  | .i64Load16u memory_argument =>
    s.validate_load max_memory_index memory_argument 1 .i64
  | .i64Load32s memory_argument =>
    s.validate_load max_memory_index memory_argument 2 .i64
  | .i64Load32u memory_argument =>
    s.validate_load max_memory_index memory_argument 2 .i64
  | .i32Store memory_argument =>
    s.validate_store max_memory_index memory_argument 2 .i32
  | .i64Store memory_argument =>
    s.validate_store max_memory_index memory_argument 3 .i64
  | .f32Store memory_argument =>
    s.validate_store max_memory_index memory_argument 2 .f32
  | .f64Store memory_argument =>
    s.validate_store max_memory_index memory_argument 3 .f64
  | .i32Store8 memory_argument =>
    s.validate_store max_memory_index memory_argument 0 .i32
  | .i32Store16 memory_argument =>
    s.validate_store max_memory_index memory_argument 1 .i32
  | .i64Store8 memory_argument =>
    s.validate_store max_memory_index memory_argument 0 .i64
  | .i64Store16 memory_argument =>
    s.validate_store max_memory_index memory_argument 1 .i64
  | .i64Store32 memory_argument =>
    s.validate_store max_memory_index memory_argument 2 .i64
  | .memorySize =>
    match validate_memory_index max_memory_index with
    | .error e => .error e
    | .ok () => .ok (s.push_known .i32)
  | .memoryGrow =>
    match validate_memory_index max_memory_index with
    | .error e => .error e
    | .ok () =>
      match s.pop_known .i32 with
      | .error e => .error e
      | .ok (_, s1) => .ok (s1.push_known .i32)
  | .i32Const _ => .ok (s.push_known .i32)
  | .i64Const _ => .ok (s.push_known .i64)
  | .f32Const _ => .ok (s.push_known .f32)
  | .f64Const _ => .ok (s.push_known .f64)
  | .i32Eqz =>
    match s.pop_known .i32 with
    | .error e => .error e
    | .ok (_, s1) => .ok (s1.push_known .i32)
  | .i32Eq =>
    match s.pop_known .i32 with
    | .error e => .error e
    | .ok (_, s1) =>
      match s1.pop_known .i32 with
      | .error e => .error e
      | .ok (_, s2) => .ok (s2.push_known .i32)
  | .i32Ne =>
    match s.pop_known .i32 with
    | .error e => .error e
    | .ok (_, s1) =>
      match s1.pop_known .i32 with
      | .error e => .error e
      | .ok (_, s2) => .ok (s2.push_known .i32)
  | .i32Lts =>
    match s.pop_known .i32 with
    | .error e => .error e
    | .ok (_, s1) =>
      match s1.pop_known .i32 with
      | .error e => .error e
      | .ok (_, s2) => .ok (s2.push_known .i32)
  | .i32Ltu =>
    match s.pop_known .i32 with
    | .error e => .error e
    | .ok (_, s1) =>
      match s1.pop_known .i32 with
      | .error e => .error e
      | .ok (_, s2) => .ok (s2.push_known .i32)
  | .i32Gts =>
    match s.pop_known .i32 with
    | .error e => .error e
    | .ok (_, s1) =>
      match s1.pop_known .i32 with
      | .error e => .error e
      | .ok (_, s2) => .ok (s2.push_known .i32)
  | .i32Gtu =>
    match s.pop_known .i32 with
    | .error e => .error e
    | .ok (_, s1) =>
      match s1.pop_known .i32 with
      | .error e => .error e
      | .ok (_, s2) => .ok (s2.push_known .i32)
  | .i32Les =>
    match s.pop_known .i32 with
    | .error e => .error e
    | .ok (_, s1) =>
      match s1.pop_known .i32 with
      | .error e => .error e
      | .ok (_, s2) => .ok (s2.push_known .i32)
  | .i32Leu =>
    match s.pop_known .i32 with
    | .error e => .error e
    | .ok (_, s1) =>
      match s1.pop_known .i32 with
      | .error e => .error e
      | .ok (_, s2) => .ok (s2.push_known .i32)
  | .i32Ges =>
    match s.pop_known .i32 with
    | .error e => .error e
    | .ok (_, s1) =>
      match s1.pop_known .i32 with
      | .error e => .error e
      | .ok (_, s2) => .ok (s2.push_known .i32)
  | .i32Geu =>
    match s.pop_known .i32 with
    | .error e => .error e
    | .ok (_, s1) =>
      match s1.pop_known .i32 with
      | .error e => .error e
      | .ok (_, s2) => .ok (s2.push_known .i32)
  | .i64Eqz =>
    match s.pop_known .i64 with
    | .error e => .error e
    | .ok (_, s1) => .ok (s1.push_known .i32)
  | .i64Eq =>
    match s.pop_known .i64 with
    | .error e => .error e
    | .ok (_, s1) =>
      match s1.pop_known .i64 with
      | .error e => .error e
      | .ok (_, s2) => .ok (s2.push_known .i32)
  | .i64Ne =>
    match s.pop_known .i64 with
    | .error e => .error e
    | .ok (_, s1) =>
      match s1.pop_known .i64 with
      | .error e => .error e
      | .ok (_, s2) => .ok (s2.push_known .i32)
  | .i64Lts =>
    match s.pop_known .i64 with
    | .error e => .error e
    | .ok (_, s1) =>
      match s1.pop_known .i64 with
      | .error e => .error e
      | .ok (_, s2) => .ok (s2.push_known .i32)
  | .i64Ltu =>
    match s.pop_known .i64 with
    | .error e => .error e
    | .ok (_, s1) =>
      match s1.pop_known .i64 with
      | .error e => .error e
      | .ok (_, s2) => .ok (s2.push_known .i32)
  | .i64Gts =>
    match s.pop_known .i64 with
    | .error e => .error e
    | .ok (_, s1) =>
      match s1.pop_known .i64 with
      | .error e => .error e
      | .ok (_, s2) => .ok (s2.push_known .i32)
  | .i64Gtu =>
    match s.pop_known .i64 with
    | .error e => .error e
    | .ok (_, s1) =>
      match s1.pop_known .i64 with
      | .error e => .error e
      | .ok (_, s2) => .ok (s2.push_known .i32)
  | .i64Les =>
    match s.pop_known .i64 with
    | .error e => .error e
    | .ok (_, s1) =>
      match s1.pop_known .i64 with
      | .error e => .error e
      | .ok (_, s2) => .ok (s2.push_known .i32)
  | .i64Leu =>
    match s.pop_known .i64 with
    | .error e => .error e
    | .ok (_, s1) =>
      match s1.pop_known .i64 with
      | .error e => .error e
      | .ok (_, s2) => .ok (s2.push_known .i32)
  | .i64Ges =>
    match s.pop_known .i64 with
    | .error e => .error e
    | .ok (_, s1) =>
      match s1.pop_known .i64 with
      | .error e => .error e
      | .ok (_, s2) => .ok (s2.push_known .i32)
  | .i64Geu =>
    match s.pop_known .i64 with
    | .error e => .error e
    | .ok (_, s1) =>
      match s1.pop_known .i64 with
      | .error e => .error e
      | .ok (_, s2) => .ok (s2.push_known .i32)
  | .f32Eq =>
    match s.pop_known .f32 with
    | .error e => .error e
    | .ok (_, s1) =>
      match s1.pop_known .f32 with
      | .error e => .error e
      | .ok (_, s2) => .ok (s2.push_known .i32)
  | .f32Ne =>
    match s.pop_known .f32 with
    | .error e => .error e
    | .ok (_, s1) =>
      match s1.pop_known .f32 with
      | .error e => .error e
      | .ok (_, s2) => .ok (s2.push_known .i32)
  | .f32Lt =>
    match s.pop_known .f32 with
    | .error e => .error e
    | .ok (_, s1) =>
      match s1.pop_known .f32 with
      | .error e => .error e
      | .ok (_, s2) => .ok (s2.push_known .i32)
  | .f32Gt =>
    match s.pop_known .f32 with
    | .error e => .error e
    | .ok (_, s1) =>
      match s1.pop_known .f32 with
      | .error e => .error e
      | .ok (_, s2) => .ok (s2.push_known .i32)
  | .f32Le =>
    match s.pop_known .f32 with
    | .error e => .error e
    | .ok (_, s1) =>
      match s1.pop_known .f32 with
      | .error e => .error e
      | .ok (_, s2) => .ok (s2.push_known .i32)
  | .f32Ge =>
    match s.pop_known .f32 with
    | .error e => .error e
    | .ok (_, s1) =>
      match s1.pop_known .f32 with
      | .error e => .error e
      | .ok (_, s2) => .ok (s2.push_known .i32)
  | .f64Eq =>
    match s.pop_known .f64 with
    | .error e => .error e
    | .ok (_, s1) =>
      match s1.pop_known .f64 with
      | .error e => .error e
      | .ok (_, s2) => .ok (s2.push_known .i32)
  | .f64Ne =>
    match s.pop_known .f64 with
    | .error e => .error e
    | .ok (_, s1) =>
      match s1.pop_known .f64 with
      | .error e => .error e
      | .ok (_, s2) => .ok (s2.push_known .i32)
  | .f64Lt =>
    match s.pop_known .f64 with
    | .error e => .error e
    | .ok (_, s1) =>
      match s1.pop_known .f64 with
      | .error e => .error e
      | .ok (_, s2) => .ok (s2.push_known .i32)
  | .f64Gt =>
    match s.pop_known .f64 with
    | .error e => .error e
    | .ok (_, s1) =>
      match s1.pop_known .f64 with
      | .error e => .error e
      | .ok (_, s2) => .ok (s2.push_known .i32)
  | .f64Le =>
    match s.pop_known .f64 with
    | .error e => .error e
    | .ok (_, s1) =>
      match s1.pop_known .f64 with
      | .error e => .error e
      | .ok (_, s2) => .ok (s2.push_known .i32)
  | .f64Ge =>
    match s.pop_known .f64 with
    | .error e => .error e
    | .ok (_, s1) =>
      match s1.pop_known .f64 with
      | .error e => .error e
      | .ok (_, s2) => .ok (s2.push_known .i32)
  | .i32Clz =>
    match s.pop_known .i32 with
    | .error e => .error e
    | .ok (_, s1) => .ok (s1.push_known .i32)
  | .i32Ctz =>
    match s.pop_known .i32 with
    | .error e => .error e
    | .ok (_, s1) => .ok (s1.push_known .i32)
  | .i32Popcnt =>
    match s.pop_known .i32 with
    | .error e => .error e
    | .ok (_, s1) => .ok (s1.push_known .i32)
  | .i32Add =>
    match s.pop_known .i32 with
    | .error e => .error e
    | .ok (_, s1) =>
      match s1.pop_known .i32 with
      | .error e => .error e
      | .ok (_, s2) => .ok (s2.push_known .i32)
  | .i32Sub =>
    match s.pop_known .i32 with
    | .error e => .error e
    | .ok (_, s1) =>
      match s1.pop_known .i32 with
      | .error e => .error e
      | .ok (_, s2) => .ok (s2.push_known .i32)
  | .i32Mul =>
    match s.pop_known .i32 with
    | .error e => .error e
    | .ok (_, s1) =>
      match s1.pop_known .i32 with
      | .error e => .error e
      | .ok (_, s2) => .ok (s2.push_known .i32)
  | .i32Divs =>
    match s.pop_known .i32 with
    | .error e => .error e
    | .ok (_, s1) =>
      match s1.pop_known .i32 with
      | .error e => .error e
      | .ok (_, s2) => .ok (s2.push_known .i32)
  | .i32Divu =>
    match s.pop_known .i32 with
    | .error e => .error e
    | .ok (_, s1) =>
      match s1.pop_known .i32 with
      | .error e => .error e
      | .ok (_, s2) => .ok (s2.push_known .i32)
  | .i32Rems =>
    match s.pop_known .i32 with
    | .error e => .error e
    | .ok (_, s1) =>
      match s1.pop_known .i32 with
      | .error e => .error e
      | .ok (_, s2) => .ok (s2.push_known .i32)
  | .i32Remu =>
    match s.pop_known .i32 with
    | .error e => .error e
    | .ok (_, s1) =>
      match s1.pop_known .i32 with
      | .error e => .error e
      | .ok (_, s2) => .ok (s2.push_known .i32)
  | .i32And =>
    match s.pop_known .i32 with
    | .error e => .error e
    | .ok (_, s1) =>
      match s1.pop_known .i32 with
      | .error e => .error e
      | .ok (_, s2) => .ok (s2.push_known .i32)
  | .i32Or =>
    match s.pop_known .i32 with
    | .error e => .error e
    | .ok (_, s1) =>
      match s1.pop_known .i32 with
      | .error e => .error e
      | .ok (_, s2) => .ok (s2.push_known .i32)
  | .i32Xor =>
    match s.pop_known .i32 with
    | .error e => .error e
    | .ok (_, s1) =>
      match s1.pop_known .i32 with
      | .error e => .error e
      | .ok (_, s2) => .ok (s2.push_known .i32)
  | .i32Shl =>
    match s.pop_known .i32 with
    | .error e => .error e
    | .ok (_, s1) =>
      match s1.pop_known .i32 with
      | .error e => .error e
      | .ok (_, s2) => .ok (s2.push_known .i32)
  | .i32Shrs =>
    match s.pop_known .i32 with
    | .error e => .error e
    | .ok (_, s1) =>
      match s1.pop_known .i32 with
      | .error e => .error e
      | .ok (_, s2) => .ok (s2.push_known .i32)
  | .i32Shru =>
    match s.pop_known .i32 with
    | .error e => .error e
    | .ok (_, s1) =>
      match s1.pop_known .i32 with
      | .error e => .error e
      | .ok (_, s2) => .ok (s2.push_known .i32)
  | .i32Rotl =>
    match s.pop_known .i32 with
    | .error e => .error e
    | .ok (_, s1) =>
      match s1.pop_known .i32 with
      | .error e => .error e
      | .ok (_, s2) => .ok (s2.push_known .i32)
  | .i32Rotr =>
    match s.pop_known .i32 with
    | .error e => .error e
    | .ok (_, s1) =>
      match s1.pop_known .i32 with
      | .error e => .error e
      | .ok (_, s2) => .ok (s2.push_known .i32)
  | .i64Clz =>
    match s.pop_known .i64 with
    | .error e => .error e
    | .ok (_, s1) => .ok (s1.push_known .i64)
  | .i64Ctz =>
    match s.pop_known .i64 with
    | .error e => .error e
    | .ok (_, s1) => .ok (s1.push_known .i64)
  | .i64Popcnt =>
    match s.pop_known .i64 with
    | .error e => .error e
    | .ok (_, s1) => .ok (s1.push_known .i64)
  | .i64Add =>
    match s.pop_known .i64 with
    | .error e => .error e
    | .ok (_, s1) =>
      match s1.pop_known .i64 with
      | .error e => .error e
      | .ok (_, s2) => .ok (s2.push_known .i64)
  | .i64Sub =>
    match s.pop_known .i64 with
    | .error e => .error e
    | .ok (_, s1) =>
      match s1.pop_known .i64 with
      | .error e => .error e
      | .ok (_, s2) => .ok (s2.push_known .i64)
  | .i64Mul =>
    match s.pop_known .i64 with
    | .error e => .error e
    | .ok (_, s1) =>
      match s1.pop_known .i64 with
      | .error e => .error e
      | .ok (_, s2) => .ok (s2.push_known .i64)
  | .i64Divs =>
    match s.pop_known .i64 with
    | .error e => .error e
    | .ok (_, s1) =>
      match s1.pop_known .i64 with
      | .error e => .error e
      | .ok (_, s2) => .ok (s2.push_known .i64)
  | .i64Divu =>
    match s.pop_known .i64 with
    | .error e => .error e
    | .ok (_, s1) =>
      match s1.pop_known .i64 with
      | .error e => .error e
      | .ok (_, s2) => .ok (s2.push_known .i64)
  | .i64Rems =>
    match s.pop_known .i64 with
    | .error e => .error e
    | .ok (_, s1) =>
      match s1.pop_known .i64 with
      | .error e => .error e
      | .ok (_, s2) => .ok (s2.push_known .i64)
  | .i64Remu =>
    match s.pop_known .i64 with
    | .error e => .error e
    | .ok (_, s1) =>
      match s1.pop_known .i64 with
      | .error e => .error e
      | .ok (_, s2) => .ok (s2.push_known .i64)
  | .i64And =>
    match s.pop_known .i64 with
    | .error e => .error e
    | .ok (_, s1) =>
      match s1.pop_known .i64 with
      | .error e => .error e
      | .ok (_, s2) => .ok (s2.push_known .i64)
  | .i64Or =>
    match s.pop_known .i64 with
    | .error e => .error e
    | .ok (_, s1) =>
      match s1.pop_known .i64 with
      | .error e => .error e
      | .ok (_, s2) => .ok (s2.push_known .i64)
  | .i64Xor =>
    match s.pop_known .i64 with
    | .error e => .error e
    | .ok (_, s1) =>
      match s1.pop_known .i64 with
      | .error e => .error e
      | .ok (_, s2) => .ok (s2.push_known .i64)
  | .i64Shl =>
    match s.pop_known .i64 with
    | .error e => .error e
    | .ok (_, s1) =>
      match s1.pop_known .i64 with
      | .error e => .error e
      | .ok (_, s2) => .ok (s2.push_known .i64)
  | .i64Shrs =>
    match s.pop_known .i64 with
    | .error e => .error e
    | .ok (_, s1) =>
      match s1.pop_known .i64 with
      | .error e => .error e
      | .ok (_, s2) => .ok (s2.push_known .i64)
  | .i64Shru =>
    match s.pop_known .i64 with
    | .error e => .error e
    | .ok (_, s1) =>
      match s1.pop_known .i64 with
      | .error e => .error e
      | .ok (_, s2) => .ok (s2.push_known .i64)
  | .i64Rotl =>
    match s.pop_known .i64 with
    | .error e => .error e
    | .ok (_, s1) =>
      match s1.pop_known .i64 with
      | .error e => .error e
      | .ok (_, s2) => .ok (s2.push_known .i64)
  | .i64Rotr =>
    match s.pop_known .i64 with
    | .error e => .error e
    | .ok (_, s1) =>
      match s1.pop_known .i64 with
      | .error e => .error e
      | .ok (_, s2) => .ok (s2.push_known .i64)
  | .f32Abs =>
    match s.pop_known .f32 with
    | .error e => .error e
    | .ok (_, s1) => .ok (s1.push_known .f32)
  | .f32Neg =>
    match s.pop_known .f32 with
    | .error e => .error e
    | .ok (_, s1) => .ok (s1.push_known .f32)
  | .f32Ceil =>
    match s.pop_known .f32 with
    | .error e => .error e
    | .ok (_, s1) => .ok (s1.push_known .f32)
  | .f32Floor =>
    match s.pop_known .f32 with
    | .error e => .error e
    | .ok (_, s1) => .ok (s1.push_known .f32)
  | .f32Trunc =>
    match s.pop_known .f32 with
    | .error e => .error e
    | .ok (_, s1) => .ok (s1.push_known .f32)
  | .f32Nearest =>
    match s.pop_known .f32 with
    | .error e => .error e
    | .ok (_, s1) => .ok (s1.push_known .f32)
  | .f32Sqrt =>
    match s.pop_known .f32 with
    | .error e => .error e
    | .ok (_, s1) => .ok (s1.push_known .f32)
  | .f32Add =>
    match s.pop_known .f32 with
    | .error e => .error e
    | .ok (_, s1) =>
      match s1.pop_known .f32 with
      | .error e => .error e
      | .ok (_, s2) => .ok (s2.push_known .f32)
  | .f32Sub =>
    match s.pop_known .f32 with
    | .error e => .error e
    | .ok (_, s1) =>
      match s1.pop_known .f32 with
      | .error e => .error e
      | .ok (_, s2) => .ok (s2.push_known .f32)
  | .f32Mul =>
    match s.pop_known .f32 with
    | .error e => .error e
    | .ok (_, s1) =>
      match s1.pop_known .f32 with
      | .error e => .error e
      | .ok (_, s2) => .ok (s2.push_known .f32)
  | .f32Div =>
    match s.pop_known .f32 with
    | .error e => .error e
    | .ok (_, s1) =>
      match s1.pop_known .f32 with
      | .error e => .error e
      | .ok (_, s2) => .ok (s2.push_known .f32)
  | .f32Min =>
    match s.pop_known .f32 with
    | .error e => .error e
    | .ok (_, s1) =>
      match s1.pop_known .f32 with
      | .error e => .error e
      | .ok (_, s2) => .ok (s2.push_known .f32)
  | .f32Max =>
    match s.pop_known .f32 with
    | .error e => .error e
    | .ok (_, s1) =>
      match s1.pop_known .f32 with
      | .error e => .error e
      | .ok (_, s2) => .ok (s2.push_known .f32)
  | .f32Copysign =>
    match s.pop_known .f32 with
    | .error e => .error e
    | .ok (_, s1) =>
      match s1.pop_known .f32 with
      | .error e => .error e
      | .ok (_, s2) => .ok (s2.push_known .f32)
  | .f64Abs =>
    match s.pop_known .f64 with
    | .error e => .error e
    | .ok (_, s1) => .ok (s1.push_known .f64)
  | .f64Neg =>
    match s.pop_known .f64 with
    | .error e => .error e
    | .ok (_, s1) => .ok (s1.push_known .f64)
  | .f64Ceil =>
    match s.pop_known .f64 with
    | .error e => .error e
    | .ok (_, s1) => .ok (s1.push_known .f64)
  | .f64Floor =>
    match s.pop_known .f64 with
    | .error e => .error e
    | .ok (_, s1) => .ok (s1.push_known .f64)
  | .f64Trunc =>
    match s.pop_known .f64 with
    | .error e => .error e
    | .ok (_, s1) => .ok (s1.push_known .f64)
  | .f64Nearest =>
    match s.pop_known .f64 with
    | .error e => .error e
    | .ok (_, s1) => .ok (s1.push_known .f64)
  | .f64Sqrt =>
    match s.pop_known .f64 with
    | .error e => .error e
    | .ok (_, s1) => .ok (s1.push_known .f64)
  | .f64Add =>
    match s.pop_known .f64 with
    | .error e => .error e
    | .ok (_, s1) =>
      match s1.pop_known .f64 with
      | .error e => .error e
      | .ok (_, s2) => .ok (s2.push_known .f64)
  | .f64Sub =>
    match s.pop_known .f64 with
    | .error e => .error e
    | .ok (_, s1) =>
      match s1.pop_known .f64 with
      | .error e => .error e
      | .ok (_, s2) => .ok (s2.push_known .f64)
  | .f64Mul =>
    match s.pop_known .f64 with
    | .error e => .error e
    | .ok (_, s1) =>
      match s1.pop_known .f64 with
      | .error e => .error e
      | .ok (_, s2) => .ok (s2.push_known .f64)
  | .f64Div =>
    match s.pop_known .f64 with
    | .error e => .error e
    | .ok (_, s1) =>
      match s1.pop_known .f64 with
      | .error e => .error e
      | .ok (_, s2) => .ok (s2.push_known .f64)
  | .f64Min =>
    match s.pop_known .f64 with
    | .error e => .error e
    | .ok (_, s1) =>
      match s1.pop_known .f64 with
      | .error e => .error e
      | .ok (_, s2) => .ok (s2.push_known .f64)
  | .f64Max =>
    match s.pop_known .f64 with
    | .error e => .error e
    | .ok (_, s1) =>
      match s1.pop_known .f64 with
      | .error e => .error e
      | .ok (_, s2) => .ok (s2.push_known .f64)
  | .f64Copysign =>
    match s.pop_known .f64 with
    | .error e => .error e
    | .ok (_, s1) =>
      match s1.pop_known .f64 with
      | .error e => .error e
      | .ok (_, s2) => .ok (s2.push_known .f64)
  | .i32WrapI64 =>
    match s.pop_known .i64 with
    | .error e => .error e
    | .ok (_, s1) => .ok (s1.push_known .i32)
  | .i32TruncF32s =>
    match s.pop_known .f32 with
    | .error e => .error e
    | .ok (_, s1) => .ok (s1.push_known .i32)
  | .i32TruncF32u =>
    match s.pop_known .f32 with
    | .error e => .error e
    | .ok (_, s1) => .ok (s1.push_known .i32)
  | .i32TruncF64s =>
    match s.pop_known .f64 with
    | .error e => .error e
    | .ok (_, s1) => .ok (s1.push_known .i32)
  | .i32TruncF64u =>
    match s.pop_known .f64 with
    | .error e => .error e
    | .ok (_, s1) => .ok (s1.push_known .i32)
  | .i64ExtendI32s =>
    match s.pop_known .i32 with
    | .error e => .error e
    | .ok (_, s1) => .ok (s1.push_known .i64)
  | .i64ExtendI32u =>
    match s.pop_known .i32 with
    | .error e => .error e
    | .ok (_, s1) => .ok (s1.push_known .i64)
  | .i64TruncF32s =>
    match s.pop_known .f32 with
    | .error e => .error e
    | .ok (_, s1) => .ok (s1.push_known .i64)
  | .i64TruncF32u =>
    match s.pop_known .f32 with
    | .error e => .error e
    | .ok (_, s1) => .ok (s1.push_known .i64)
  | .i64TruncF64s =>
    match s.pop_known .f64 with
    | .error e => .error e
    | .ok (_, s1) => .ok (s1.push_known .i64)
  | .i64TruncF64u =>
    match s.pop_known .f64 with
    | .error e => .error e
    | .ok (_, s1) => .ok (s1.push_known .i64)
  | .f32ConvertI32s =>
    match s.pop_known .i32 with
    | .error e => .error e
    | .ok (_, s1) => .ok (s1.push_known .f32)
  | .f32ConvertI32u =>
    match s.pop_known .i32 with
    | .error e => .error e
    | .ok (_, s1) => .ok (s1.push_known .f32)
  | .f32ConvertI64s =>
    match s.pop_known .i64 with
    | .error e => .error e
    | .ok (_, s1) => .ok (s1.push_known .f32)
  | .f32ConvertI64u =>
    match s.pop_known .i64 with
    | .error e => .error e
    | .ok (_, s1) => .ok (s1.push_known .f32)
  | .f32DemoteF64 =>
    match s.pop_known .f64 with
    | .error e => .error e
    | .ok (_, s1) => .ok (s1.push_known .f32)
  | .f64ConvertI32s =>
    match s.pop_known .i32 with
    | .error e => .error e
    | .ok (_, s1) => .ok (s1.push_known .f64)
  | .f64ConvertI32u =>
    match s.pop_known .i32 with
    | .error e => .error e
    | .ok (_, s1) => .ok (s1.push_known .f64)
  | .f64ConvertI64s =>
    match s.pop_known .i64 with
    | .error e => .error e
    | .ok (_, s1) => .ok (s1.push_known .f64)
  | .f64ConvertI64u =>
    match s.pop_known .i64 with
    | .error e => .error e
    | .ok (_, s1) => .ok (s1.push_known .f64)
  | .f64PromoteF32 =>
    match s.pop_known .f32 with
    | .error e => .error e
    | .ok (_, s1) => .ok (s1.push_known .f64)
  | .i32ReinterpretF32 =>
    match s.pop_known .f32 with
    | .error e => .error e
    | .ok (_, s1) => .ok (s1.push_known .i32)
  | .i64ReinterpretF64 =>
    match s.pop_known .f64 with
    | .error e => .error e
    | .ok (_, s1) => .ok (s1.push_known .i64)
  | .f32ReinterpretI32 =>
    match s.pop_known .i32 with
    | .error e => .error e
    | .ok (_, s1) => .ok (s1.push_known .f32)
  | .f64ReinterpretI64 =>
    match s.pop_known .i64 with
    | .error e => .error e
    | .ok (_, s1) => .ok (s1.push_known .f64)
  | .i32Extend8s =>
    match s.pop_known .i32 with
    | .error e => .error e
    | .ok (_, s1) => .ok (s1.push_known .i32)
  | .i32Extend16s =>
    match s.pop_known .i32 with
    | .error e => .error e
    | .ok (_, s1) => .ok (s1.push_known .i32)
  | .i64Extend8s =>
    match s.pop_known .i64 with
    | .error e => .error e
    | .ok (_, s1) => .ok (s1.push_known .i64)
  | .i64Extend16s =>
    match s.pop_known .i64 with
    | .error e => .error e
    | .ok (_, s1) => .ok (s1.push_known .i64)
  | .i64Extend32s =>
    match s.pop_known .i64 with
    | .error e => .error e
    | .ok (_, s1) => .ok (s1.push_known .i64)
  | .i32TruncSatF32s =>
    match s.pop_known .f32 with
    | .error e => .error e
    | .ok (_, s1) => .ok (s1.push_known .i32)
  | .i32TruncSatF32u =>
    match s.pop_known .f32 with
    | .error e => .error e
    | .ok (_, s1) => .ok (s1.push_known .i32)
  | .i32TruncSatF64s =>
    match s.pop_known .f64 with
    | .error e => .error e
    | .ok (_, s1) => .ok (s1.push_known .i32)
  | .i32TruncSatF64u =>
    match s.pop_known .f64 with
    | .error e => .error e
    | .ok (_, s1) => .ok (s1.push_known .i32)
  | .i64TruncSatF32s =>
    match s.pop_known .f32 with
    | .error e => .error e
    | .ok (_, s1) => .ok (s1.push_known .i64)
  | .i64TruncSatF32u =>
    match s.pop_known .f32 with
    | .error e => .error e
    | .ok (_, s1) => .ok (s1.push_known .i64)
  | .i64TruncSatF64s =>
    match s.pop_known .f64 with
    | .error e => .error e
    | .ok (_, s1) => .ok (s1.push_known .i64)
  | .i64TruncSatF64u =>
    match s.pop_known .f64 with
    | .error e => .error e
    | .ok (_, s1) => .ok (s1.push_known .i64)


/-! ### The decoder consumes at least one byte

These lemmas drive the termination of the instruction-validation loop of
`CodeValidator::validate`: a successfully decoded instruction always leaves
a strictly shorter byte list. -/

/-- `read_byte` consumes one byte. -/
theorem read_byte_length (bytes : List Nat) (b : Nat) (rest : List Nat)
    (h : read_byte bytes = .ok (b, rest)) : rest.length < bytes.length := by
  cases bytes with
  | nil => simp [read_byte] at h
  | cons x tail =>
    simp only [read_byte, Except.ok.injEq, Prod.mk.injEq] at h
    obtain ⟨-, rfl⟩ := h
    simp

/-- `read_bytes` never grows the remainder. -/
theorem read_bytes_length_le (n : Nat) (bytes v rest : List Nat)
    (h : read_bytes n bytes = .ok (v, rest)) : rest.length ≤ bytes.length := by
  unfold read_bytes at h
  split at h
  · simp only [Except.ok.injEq, Prod.mk.injEq] at h
    obtain ⟨-, rfl⟩ := h
    simp
  · simp at h

theorem read_leb128_u32_loop_length :
    ∀ (bytes : List Nat) (shift acc v : Nat) (rest : List Nat),
      read_leb128_u32_loop bytes shift acc = .ok (v, rest) →
      rest.length < bytes.length := by
  intro bytes
  induction bytes with
  | nil => intro shift acc v rest h; simp [read_leb128_u32_loop] at h
  | cons b tail ih =>
    intro shift acc v rest h
    simp only [read_leb128_u32_loop] at h
    split at h
    · simp at h
    · split at h
      · simp only [Except.ok.injEq, Prod.mk.injEq] at h
        obtain ⟨-, rfl⟩ := h
        simp
      · have := ih (shift + 7) _ v rest h
        simp
        omega

/-- `read_leb128_u32` consumes at least one byte. -/
theorem read_leb128_u32_length (bytes : List Nat) (v : Nat) (rest : List Nat)
    (h : read_leb128_u32 bytes = .ok (v, rest)) : rest.length < bytes.length :=
  read_leb128_u32_loop_length bytes 0 0 v rest h

theorem read_leb128_s32_loop_length :
    ∀ (bytes : List Nat) (shift acc : Nat) (v : Int) (rest : List Nat),
      read_leb128_s32_loop bytes shift acc = .ok (v, rest) →
      rest.length < bytes.length := by
  intro bytes
  induction bytes with
  | nil => intro shift acc v rest h; simp [read_leb128_s32_loop] at h
  | cons b tail ih =>
    intro shift acc v rest h
    simp only [read_leb128_s32_loop] at h
    split at h
    · split at h
      · simp at h
      · simp only [Except.ok.injEq, Prod.mk.injEq] at h
        obtain ⟨-, rfl⟩ := h
        simp
    · split at h
      · simp only [Except.ok.injEq, Prod.mk.injEq] at h
        obtain ⟨-, rfl⟩ := h
        simp
      · have := ih (shift + 7) _ v rest h
        simp
        omega

/-- `read_leb128_s32` consumes at least one byte. -/
theorem read_leb128_s32_length (bytes : List Nat) (v : Int) (rest : List Nat)
    (h : read_leb128_s32 bytes = .ok (v, rest)) : rest.length < bytes.length :=
  read_leb128_s32_loop_length bytes 0 0 v rest h

theorem read_leb128_s33_loop_length :
    ∀ (bytes : List Nat) (shift acc : Nat) (v : Int) (rest : List Nat),
      read_leb128_s33_loop bytes shift acc = .ok (v, rest) →
      rest.length < bytes.length := by
  intro bytes
  induction bytes with
  | nil => intro shift acc v rest h; simp [read_leb128_s33_loop] at h
  | cons b tail ih =>
    intro shift acc v rest h
    simp only [read_leb128_s33_loop] at h
    split at h
    · split at h
      · simp at h
      · simp only [Except.ok.injEq, Prod.mk.injEq] at h
        obtain ⟨-, rfl⟩ := h
        simp
    · split at h
      · simp only [Except.ok.injEq, Prod.mk.injEq] at h
        obtain ⟨-, rfl⟩ := h
        simp
      · have := ih (shift + 7) _ v rest h
        simp
        omega

/-- `read_leb128_s33` consumes at least one byte. -/
theorem read_leb128_s33_length (bytes : List Nat) (v : Int) (rest : List Nat)
    (h : read_leb128_s33 bytes = .ok (v, rest)) : rest.length < bytes.length :=
  read_leb128_s33_loop_length bytes 0 0 v rest h

theorem read_leb128_s64_loop_length :
    ∀ (bytes : List Nat) (shift acc : Nat) (v : Int) (rest : List Nat),
      read_leb128_s64_loop bytes shift acc = .ok (v, rest) →
      rest.length < bytes.length := by
  intro bytes
  induction bytes with
  | nil => intro shift acc v rest h; simp [read_leb128_s64_loop] at h
  | cons b tail ih =>
    intro shift acc v rest h
    simp only [read_leb128_s64_loop] at h
    split at h
    · split at h
      · simp at h
      · simp only [Except.ok.injEq, Prod.mk.injEq] at h
        obtain ⟨-, rfl⟩ := h
        simp
    · split at h
      · simp only [Except.ok.injEq, Prod.mk.injEq] at h
        obtain ⟨-, rfl⟩ := h
        simp
      · have := ih (shift + 7) _ v rest h
        simp
        omega

/-- `read_leb128_s64` consumes at least one byte. -/
theorem read_leb128_s64_length (bytes : List Nat) (v : Int) (rest : List Nat)
    (h : read_leb128_s64 bytes = .ok (v, rest)) : rest.length < bytes.length :=
  read_leb128_s64_loop_length bytes 0 0 v rest h

/-- `read_value_type` consumes one byte. -/
theorem read_value_type_length (bytes : List Nat) (v : ValueType)
    (rest : List Nat) (h : read_value_type bytes = .ok (v, rest)) :
    rest.length < bytes.length := by
  cases bytes with
  | nil => simp [read_value_type] at h
  | cons b tail =>
    simp only [read_value_type] at h
    split at h <;> simp_all

/-- `read_memory_argument` never grows the remainder. -/
theorem read_memory_argument_length_le (bytes : List Nat)
    (v : MemoryArgument) (rest : List Nat)
    (h : read_memory_argument bytes = .ok (v, rest)) :
    rest.length ≤ bytes.length := by
  unfold read_memory_argument at h
  split at h
  · simp at h
  · rename_i a r1 heq1
    split at h
    · simp at h
    · rename_i o r2 heq2
      simp only [Except.ok.injEq, Prod.mk.injEq] at h
      obtain ⟨-, rfl⟩ := h
      have h1 := read_leb128_u32_length _ _ _ heq1
      have h2 := read_leb128_u32_length _ _ _ heq2
      omega

/-- `read_block_type` never grows the remainder. -/
theorem read_block_type_length_le (bytes : List Nat) (v : BlockType)
    (rest : List Nat) (h : read_block_type bytes = .ok (v, rest)) :
    rest.length ≤ bytes.length := by
  unfold read_block_type at h
  split at h
  · rename_i vt r heq
    simp only [Except.ok.injEq, Prod.mk.injEq] at h
    obtain ⟨-, rfl⟩ := h
    exact Nat.le_of_lt (read_value_type_length _ _ _ heq)
  · split at h
    · simp at h
    · rename_i r heq
      simp only [Except.ok.injEq, Prod.mk.injEq] at h
      obtain ⟨-, rfl⟩ := h
      exact Nat.le_of_lt (read_byte_length _ _ _ heq)
    · rename_i b2 r heq
      split at h
      · simp at h
      · rename_i idx r2 heq2
        split at h
        · simp at h
        · simp only [Except.ok.injEq, Prod.mk.injEq] at h
          obtain ⟨-, rfl⟩ := h
          have h1 := read_byte_length _ _ _ heq
          have h2 := read_leb128_s33_length _ _ _ heq2
          omega

theorem skip_br_table_labels_length_le :
    ∀ (k : Nat) (bytes rest : List Nat),
      skip_br_table_labels k bytes = .ok rest → rest.length ≤ bytes.length := by
  intro k
  induction k with
  | zero =>
    intro bytes rest h
    simp only [skip_br_table_labels, Except.ok.injEq] at h
    subst h
    exact Nat.le_refl _
  | succ n ih =>
    intro bytes rest h
    simp only [skip_br_table_labels] at h
    split at h
    · simp at h
    · rename_i l r heq
      have h1 := read_leb128_u32_length _ _ _ heq
      have h2 := ih r rest h
      omega

/-- `create_branch_table_reader` never grows the remainder. -/
theorem create_branch_table_reader_length_le (bytes : List Nat)
    (v : BranchTableReader) (rest : List Nat)
    (h : create_branch_table_reader bytes = .ok (v, rest)) :
    rest.length ≤ bytes.length := by
  unfold create_branch_table_reader at h
  split at h
  · simp at h
  · rename_i span r heq
    split at h
    · simp at h
    · simp only [Except.ok.injEq, Prod.mk.injEq] at h
      obtain ⟨-, rfl⟩ := h
      unfold skip_br_table at heq
      split at heq
      · simp at heq
      · rename_i n r1 heq1
        split at heq
        · simp at heq
        · rename_i r2 heq2
          simp only [Except.ok.injEq, Prod.mk.injEq] at heq
          obtain ⟨-, rfl⟩ := heq
          have h1 := read_leb128_u32_length _ _ _ heq1
          have h2 := skip_br_table_labels_length_le _ _ _ heq2
          omega

/-- `read_f32` never grows the remainder. -/
theorem read_f32_length_le (bytes v rest : List Nat)
    (h : read_f32 bytes = .ok (v, rest)) : rest.length ≤ bytes.length :=
  read_bytes_length_le 4 bytes v rest h

/-- `read_f64` never grows the remainder. -/
theorem read_f64_length_le (bytes v rest : List Nat)
    (h : read_f64 bytes = .ok (v, rest)) : rest.length ≤ bytes.length :=
  read_bytes_length_le 8 bytes v rest h

set_option maxHeartbeats 1600000 in
set_option maxRecDepth 8192 in
/-- A successfully decoded instruction consumes at least one byte. -/
theorem InstructionReader.read_length (bytes : List Nat) (i : Instruction)
    (rest : List Nat) (h : InstructionReader.read bytes = .ok (i, rest)) :
    rest.length < bytes.length := by
  cases bytes with
  | nil => simp [InstructionReader.read, read_byte] at h
  | cons b tail =>
    have hle : rest.length ≤ tail.length := by
      unfold InstructionReader.read at h
      simp only [read_byte] at h
      split at h <;>
        first
        | (simp_all
           done)
        | (simp only [Except.ok.injEq, Prod.mk.injEq] at h
           obtain ⟨-, rfl⟩ := h
           first
           | exact Nat.le_of_lt (read_leb128_u32_length _ _ _ (by assumption))
           | exact Nat.le_of_lt (read_leb128_s32_length _ _ _ (by assumption))
           | exact Nat.le_of_lt (read_leb128_s64_length _ _ _ (by assumption))
           | exact Nat.le_of_lt (read_byte_length _ _ _ (by assumption))
           | exact read_f32_length_le _ _ _ (by assumption)
           | exact read_f64_length_le _ _ _ (by assumption)
           | exact read_block_type_length_le _ _ _ (by assumption)
           | exact read_memory_argument_length_le _ _ _ (by assumption)
           | exact create_branch_table_reader_length_le _ _ _ (by assumption))
        | (split at h <;>
            first
            | (simp_all
               done)
            | (simp only [Except.ok.injEq, Prod.mk.injEq] at h
               obtain ⟨-, rfl⟩ := h
               first
               | exact Nat.le_of_lt (read_leb128_u32_length _ _ _ (by assumption))
               | exact Nat.le_of_lt (read_leb128_s32_length _ _ _ (by assumption))
               | exact Nat.le_of_lt (read_leb128_s64_length _ _ _ (by assumption))
               | exact Nat.le_of_lt (read_byte_length _ _ _ (by assumption))
               | exact read_f32_length_le _ _ _ (by assumption)
               | exact read_f64_length_le _ _ _ (by assumption)
               | exact read_block_type_length_le _ _ _ (by assumption)
               | exact read_memory_argument_length_le _ _ _ (by assumption)
               | exact create_branch_table_reader_length_le _ _ _ (by assumption))
            | (split at h <;>
                first
                | (simp_all
                   done)
                | (simp only [Except.ok.injEq, Prod.mk.injEq] at h
                   obtain ⟨-, rfl⟩ := h
                   first
                   | exact Nat.le_of_lt (read_leb128_u32_length _ _ _ (by assumption))
                   | exact Nat.le_of_lt (read_leb128_s32_length _ _ _ (by assumption))
                   | exact Nat.le_of_lt (read_leb128_s64_length _ _ _ (by assumption))
                   | exact Nat.le_of_lt (read_byte_length _ _ _ (by assumption))
                   | exact read_f32_length_le _ _ _ (by assumption)
                   | exact read_f64_length_le _ _ _ (by assumption)
                   | exact read_block_type_length_le _ _ _ (by assumption)
                   | exact read_memory_argument_length_le _ _ _ (by assumption)
                   | exact create_branch_table_reader_length_le _ _ _ (by assumption))
                | (split at h <;>
                    first
                    | (simp_all
                       done)
                    | (simp only [Except.ok.injEq, Prod.mk.injEq] at h
                       obtain ⟨-, rfl⟩ := h
                       first
                       | exact Nat.le_of_lt (read_leb128_u32_length _ _ _ (by assumption))
                       | exact Nat.le_of_lt (read_leb128_s32_length _ _ _ (by assumption))
                       | exact Nat.le_of_lt (read_leb128_s64_length _ _ _ (by assumption))
                       | exact Nat.le_of_lt (read_byte_length _ _ _ (by assumption))
                       | exact read_f32_length_le _ _ _ (by assumption)
                       | exact read_f64_length_le _ _ _ (by assumption)
                       | exact read_block_type_length_le _ _ _ (by assumption)
                       | exact read_memory_argument_length_le _ _ _ (by assumption)
                       | exact create_branch_table_reader_length_le _ _ _ (by assumption))
                    | (split at h <;>
                        first
                        | (simp_all
                           done)
                        | (simp only [Except.ok.injEq, Prod.mk.injEq] at h
                           obtain ⟨-, rfl⟩ := h
                           first
                           | exact Nat.le_of_lt (read_leb128_u32_length _ _ _ (by assumption))
                           | exact Nat.le_of_lt (read_leb128_s32_length _ _ _ (by assumption))
                           | exact Nat.le_of_lt (read_leb128_s64_length _ _ _ (by assumption))
                           | exact Nat.le_of_lt (read_byte_length _ _ _ (by assumption))
                           | exact read_f32_length_le _ _ _ (by assumption)
                           | exact read_f64_length_le _ _ _ (by assumption)
                           | exact read_block_type_length_le _ _ _ (by assumption)
                           | exact read_memory_argument_length_le _ _ _ (by assumption)
                           | exact create_branch_table_reader_length_le _ _ _ (by assumption))
                        | (split at h <;>
                            first
                            | (simp_all
                               done)
                            | (simp only [Except.ok.injEq, Prod.mk.injEq] at h
                               obtain ⟨-, rfl⟩ := h
                               first
                               | exact Nat.le_of_lt (read_leb128_u32_length _ _ _ (by assumption))
                               | exact Nat.le_of_lt (read_leb128_s32_length _ _ _ (by assumption))
                               | exact Nat.le_of_lt (read_leb128_s64_length _ _ _ (by assumption))
                               | exact Nat.le_of_lt (read_byte_length _ _ _ (by assumption))
                               | exact read_f32_length_le _ _ _ (by assumption)
                               | exact read_f64_length_le _ _ _ (by assumption)
                               | exact read_block_type_length_le _ _ _ (by assumption)
                               | exact read_memory_argument_length_le _ _ _ (by assumption)
                               | exact create_branch_table_reader_length_le _ _ _ (by assumption))
                            | (split at h <;>
                                first
                                | (simp_all
                                   done)
                                | (simp only [Except.ok.injEq, Prod.mk.injEq] at h
                                   obtain ⟨-, rfl⟩ := h
                                   first
                                   | exact Nat.le_of_lt (read_leb128_u32_length _ _ _ (by assumption))
                                   | exact Nat.le_of_lt (read_leb128_s32_length _ _ _ (by assumption))
                                   | exact Nat.le_of_lt (read_leb128_s64_length _ _ _ (by assumption))
                                   | exact Nat.le_of_lt (read_byte_length _ _ _ (by assumption))
                                   | exact read_f32_length_le _ _ _ (by assumption)
                                   | exact read_f64_length_le _ _ _ (by assumption)
                                   | exact read_block_type_length_le _ _ _ (by assumption)
                                   | exact read_memory_argument_length_le _ _ _ (by assumption)
                                   | exact create_branch_table_reader_length_le _ _ _ (by assumption))))))))
    simp only [List.length_cons]
    omega


/-! ## Per-entry code validation (`CodeValidator::validate`) -/

/-- `Locals` of `src/types.rs`: a run-length pair. -/
structure Locals where
  count : Nat
  value_type : ValueType
deriving DecidableEq, Repr

/-- `LocalsReader::read`: a LEB128 count then a value type. -/
def LocalsReader.read (bytes : List Nat) :
    Except CodeReaderError (Locals × List Nat) :=
  match read_leb128_u32 bytes with
  | .error e => .error (.binaryReaderError e)
  | .ok (count, rest) =>
    match read_value_type rest with
    | .error e => .error (.binaryReaderError e)
    | .ok (value_type, rest') => .ok (⟨count, value_type⟩, rest')

/-- The locals iteration of `create_locals`/`get_iteration_proof`: read the
declared number of runs (the iterator stops at the first error, which the
`for` loop in `create_locals` then propagates), returning the runs and the
reader's final position — the start of the instructions. -/
def read_locals_items : Nat → List Nat →
    Except CodeReaderError (List Locals × List Nat)
  | 0, bytes => .ok ([], bytes)
  | k + 1, bytes =>
    match LocalsReader.read bytes with
    | .error e => .error e
    | .ok (l, rest) =>
      match read_locals_items k rest with
      | .error e => .error e
      | .ok (locals, rest') => .ok (l :: locals, rest')

/-- Expansion of local runs by their counts, in declaration order. -/
def expand_locals : List Locals → List ValueType
  | [] => []
  | l :: rest => List.replicate l.count l.value_type ++ expand_locals rest

/-- The instruction loop of `CodeValidator::validate`: the instruction
reader yields one instruction at a time until its region is exhausted, and
every decoded instruction is validated; read and validation errors are
propagated. -/
def run_instructions (s : CodeValidatorState) (bytes : List Nat)
    (globals : List GlobalType) (locals : List ValueType)
    (function_types : List FunctionType) (function_type_indices : List Nat)
    (max_table_index : Option Nat) (max_memory_index : Option Nat) :
    Except CodeValidationError Unit :=
  if bytes.isEmpty then .ok ()
  else
    match hr : InstructionReader.read bytes with
    | .error e => .error (.instructionReader e)
    | .ok (instruction, rest) =>
      match validate_instruction s instruction globals locals function_types
          function_type_indices max_table_index max_memory_index with
      | .error e => .error e
      | .ok s' =>
        run_instructions s' rest globals locals function_types
          function_type_indices max_table_index max_memory_index
termination_by bytes.length
decreasing_by exact InstructionReader.read_length bytes instruction rest hr

/-- `CodeValidator::validate` over a code entry's body bytes
(`[locals_vec][instructions…]`): resolve the function's type, build the
initial state and the locals (parameters first, then the declared runs
expanded by count), then validate every instruction. -/
def CodeValidator.validate (code : List Nat) (globals : List GlobalType)
    (function_types : List FunctionType) (function_type_indices : List Nat)
    (function_index : Nat) (max_table_index : Option Nat)
    (max_memory_index : Option Nat) : Except CodeValidationError Unit :=
  match get_func_type_index function_type_indices function_index with
  | .error e => .error e
  | .ok func_type_index =>
    let state := CodeValidatorState.new func_type_index
    match read_leb128_u32 code with
    | .error e => .error (.codeReader (.binaryReaderError e))
    | .ok (locals_count, after_count) =>
      match get_func_type function_types function_type_indices function_index with
      | .error e => .error e
      | .ok function_type =>
        match read_locals_items locals_count after_count with
        | .error e => .error (.codeReader e)
        | .ok (locals_runs, instruction_bytes) =>
          let locals := function_type.params ++ expand_locals locals_runs
          run_instructions state instruction_bytes globals locals
            function_types function_type_indices max_table_index
            max_memory_index

/-- `run_instructions` on an exhausted instruction region succeeds. -/
theorem run_instructions_nil (s : CodeValidatorState)
    (globals : List GlobalType) (locals : List ValueType)
    (function_types : List FunctionType) (function_type_indices : List Nat)
    (max_table_index max_memory_index : Option Nat) :
    run_instructions s [] globals locals function_types
      function_type_indices max_table_index max_memory_index = .ok () := by
  rw [run_instructions]
  rfl

/-- One step of `run_instructions`: decode, validate, continue. -/
theorem run_instructions_step (s : CodeValidatorState) (bytes : List Nat)
    (globals : List GlobalType) (locals : List ValueType)
    (function_types : List FunctionType) (function_type_indices : List Nat)
    (max_table_index max_memory_index : Option Nat)
    (instruction : Instruction) (rest : List Nat)
    (hread : InstructionReader.read bytes = .ok (instruction, rest))
    (hne : bytes.isEmpty = false) :
    run_instructions s bytes globals locals function_types
      function_type_indices max_table_index max_memory_index =
      (match validate_instruction s instruction globals locals function_types
          function_type_indices max_table_index max_memory_index with
       | .error e => .error e
       | .ok s' =>
         run_instructions s' rest globals locals function_types
           function_type_indices max_table_index max_memory_index) := by
  rw [run_instructions, if_neg (by simp [hne])]
  split
  · rename_i e heq
    rw [hread] at heq
    cases heq
  · rename_i i' rest' heq
    rw [hread] at heq
    injection heq with h1
    injection h1 with hi hrest
    subst hi
    subst hrest
    rfl

set_option maxRecDepth 4096 in
/-- **C1** (code bug).  A code entry whose body is just the single `end`
instruction, for a function of type `[i32] -> [i32]`: the `End` arm of
`validate_instruction` does nothing and `validate` performs no final frame
check, so the entry is *accepted* — not rejected with `OperandStackEmpty`
as the specification requires (and leftover operands at a block's end are
likewise never checked, since `pop_control_frame` is only reached from the
`Else` arm). -/
theorem c1_empty_body_accepted :
    CodeValidator.validate [0x00, 0x0B] [] [⟨[.i32], [.i32]⟩] [0] 0
      none none = .ok () := by
  rw [CodeValidator.validate]
  simp only [show get_func_type_index [0] 0 = .ok 0 from rfl,
    show read_leb128_u32 [0x00, 0x0B] = .ok (0, [0x0B]) from rfl,
    show get_func_type [⟨[.i32], [.i32]⟩] [0] 0 = .ok ⟨[.i32], [.i32]⟩ from rfl,
    show read_locals_items 0 [0x0B] = .ok ([], [0x0B]) from rfl,
    expand_locals, List.append_nil]
  rw [run_instructions_step _ _ _ _ _ _ _ _ .end_ []
    (show InstructionReader.read [0x0B] = .ok (.end_, []) from rfl) rfl]
  simp only [show validate_instruction (CodeValidatorState.new 0) .end_ []
      [ValueType.i32] [⟨[.i32], [.i32]⟩] [0] none none =
    .ok (CodeValidatorState.new 0) from rfl]
  exact run_instructions_nil _ _ _ _ _ _ _

set_option maxRecDepth 4096 in
/-- **C3** (code bug).  Validating the body `br_if 0; end` of a function of
type `[] -> []`: the `BranchIf` arm pops no `i32` condition (so the empty
operand stack is accepted instead of yielding `OperandStackEmpty`) and it
calls `unreachable()` — exactly like `br` — leaving the frame's
`unreachable` flag set; the entry validates successfully. -/
theorem c3_br_if_no_condition_and_unreachable :
    CodeValidator.validate [0x00, 0x0D, 0x00, 0x0B] [] [⟨[], []⟩] [0] 0
      none none = .ok () ∧
    validate_instruction (CodeValidatorState.new 0) (.branchIf 0) [] []
      [⟨[], []⟩] [0] none none =
      .ok ⟨[], [⟨.block, .typeIndex 0, 0, true⟩]⟩ := by
  constructor
  · rw [CodeValidator.validate]
    simp only [show get_func_type_index [0] 0 = .ok 0 from rfl,
      show read_leb128_u32 [0x00, 0x0D, 0x00, 0x0B] = .ok (0, [0x0D, 0x00, 0x0B]) from rfl,
      show get_func_type [⟨[], []⟩] [0] 0 = .ok ⟨[], []⟩ from rfl,
      show read_locals_items 0 [0x0D, 0x00, 0x0B] = .ok ([], [0x0D, 0x00, 0x0B]) from rfl,
      expand_locals, List.append_nil]
    rw [run_instructions_step _ _ _ _ _ _ _ _ (.branchIf 0) [0x0B]
      (show InstructionReader.read [0x0D, 0x00, 0x0B] = .ok (.branchIf 0, [0x0B]) from rfl) rfl]
    simp only [show validate_instruction (CodeValidatorState.new 0) (.branchIf 0) []
        ([] : List ValueType) [⟨[], []⟩] [0] none none =
      .ok ⟨[], [⟨.block, .typeIndex 0, 0, true⟩]⟩ from rfl]
    rw [run_instructions_step _ _ _ _ _ _ _ _ .end_ []
      (show InstructionReader.read [0x0B] = .ok (.end_, []) from rfl) rfl]
    simp only [show validate_instruction ⟨[], [⟨.block, .typeIndex 0, 0, true⟩]⟩ .end_ []
        ([] : List ValueType) [⟨[], []⟩] [0] none none =
      .ok ⟨[], [⟨.block, .typeIndex 0, 0, true⟩]⟩ from rfl]
    exact run_instructions_nil _ _ _ _ _ _ _
  · rfl


/-! ### The control stack is never empty (claim C10)

`ControlOk r` says a `validate_instruction` result is not the
control-stack-panic marker and that a successor state keeps a non-empty
control stack. -/

/-- Goal predicate for the control-stack invariant. -/
def ControlOk (r : Except CodeValidationError CodeValidatorState) : Prop :=
  r ≠ .error .panicControlStack ∧
    ∀ s', r = .ok s' → s'.control_stack ≠ []

theorem controlOk_pure (s : CodeValidatorState) (h : s.control_stack ≠ []) :
    ControlOk (.ok s) := by
  constructor
  · simp
  · intro s' hs'
    cases hs'
    exact h

theorem controlOk_error (e : CodeValidationError)
    (h : e ≠ .panicControlStack) : ControlOk (.error e) := by
  constructor
  · simp [h]
  · intro s' hs'
    cases hs'

/-- `pop_operand` neither panics on the control stack nor changes it. -/
theorem pop_operand_spec (s : CodeValidatorState) (hs : s.control_stack ≠ []) :
    (∀ e, s.pop_operand = .error e → e ≠ .panicControlStack) ∧
    (∀ a s', s.pop_operand = .ok (a, s') → s'.control_stack = s.control_stack) := by
  cases hcs : s.control_stack with
  | nil => exact absurd hcs hs
  | cons f rest =>
    simp only [CodeValidatorState.pop_operand, hcs]
    constructor
    · intro e he
      split at he
      · split at he
        · simp at he
        · simp only [Except.error.injEq] at he
          subst he
          simp
      · split at he
        · simp only [Except.error.injEq] at he
          subst he
          simp
        · simp at he
    · intro a s' h
      split at h
      · split at h
        · simp only [Except.ok.injEq, Prod.mk.injEq] at h
          obtain ⟨-, rfl⟩ := h
          exact hcs
        · simp at h
      · split at h
        · simp at h
        · simp only [Except.ok.injEq, Prod.mk.injEq] at h
          obtain ⟨-, rfl⟩ := h
          rfl

/-- `pop_expected` neither panics on the control stack nor changes it. -/
theorem pop_expected_spec (s : CodeValidatorState) (expected : Operand)
    (hs : s.control_stack ≠ []) :
    (∀ e, s.pop_expected expected = .error e → e ≠ .panicControlStack) ∧
    (∀ a s', s.pop_expected expected = .ok (a, s') →
      s'.control_stack = s.control_stack) := by
  obtain ⟨hperr, hpok⟩ := pop_operand_spec s hs
  unfold CodeValidatorState.pop_expected
  constructor
  · intro e he
    split at he
    · rename_i e0 heq
      simp only [Except.error.injEq] at he
      subst he
      exact hperr _ heq
    · rename_i a s1 heq
      split at he
      · simp at he
      · split at he
        · simp at he
        · split at he
          · simp only [Except.error.injEq] at he
            subst he
            simp
          · simp at he
  · intro a s' hok
    split at hok
    · simp at hok
    · rename_i a1 s1 heq
      have h1 := hpok _ _ heq
      split at hok
      · simp only [Except.ok.injEq, Prod.mk.injEq] at hok
        obtain ⟨-, rfl⟩ := hok
        exact h1
      · split at hok
        · simp only [Except.ok.injEq, Prod.mk.injEq] at hok
          obtain ⟨-, rfl⟩ := hok
          exact h1
        · split at hok
          · simp at hok
          · simp only [Except.ok.injEq, Prod.mk.injEq] at hok
            obtain ⟨-, rfl⟩ := hok
            exact h1

/-- `pop_known` neither panics on the control stack nor changes it. -/
theorem pop_known_spec (s : CodeValidatorState) (t : ValueType)
    (hs : s.control_stack ≠ []) :
    (∀ e, s.pop_known t = .error e → e ≠ .panicControlStack) ∧
    (∀ a s', s.pop_known t = .ok (a, s') →
      s'.control_stack = s.control_stack) :=
  pop_expected_spec s (.known t) hs

/-- `pop_knowns` neither panics on the control stack nor changes it. -/
theorem pop_knowns_spec (tys : List ValueType) :
    ∀ (s : CodeValidatorState), s.control_stack ≠ [] →
    (∀ e, s.pop_knowns tys = .error e → e ≠ .panicControlStack) ∧
    (∀ s', s.pop_knowns tys = .ok s' →
      s'.control_stack = s.control_stack) := by
  induction tys with
  | nil =>
    intro s hs
    constructor
    · intro e he
      simp [CodeValidatorState.pop_knowns] at he
    · intro s' h
      simp only [CodeValidatorState.pop_knowns, Except.ok.injEq] at h
      subst h
      rfl
  | cons t rest ih =>
    intro s hs
    obtain ⟨hkerr, hkok⟩ := pop_known_spec s t hs
    constructor
    · intro e he
      simp only [CodeValidatorState.pop_knowns] at he
      split at he
      · simp only [Except.error.injEq] at he
        subst he
        exact hkerr _ (by assumption)
      · rename_i a s1 heq
        have h1 := hkok _ _ heq
        exact (ih s1 (by rw [h1]; exact hs)).1 e he
    · intro s' h
      simp only [CodeValidatorState.pop_knowns] at h
      split at h
      · simp at h
      · rename_i a s1 heq
        have h1 := hkok _ _ heq
        have h2 := (ih s1 (by rw [h1]; exact hs)).2 s' h
        rw [h2, h1]

/-- `push_knowns` does not change the control stack. -/
theorem push_knowns_control (tys : List ValueType) :
    ∀ s : CodeValidatorState,
      (s.push_knowns tys).control_stack = s.control_stack := by
  induction tys with
  | nil => intro s; rfl
  | cons t rest ih =>
    intro s
    simp only [CodeValidatorState.push_knowns]
    rw [ih]
    rfl

/-- `unreachable` succeeds on a non-empty control stack and keeps it
non-empty. -/
theorem controlOk_unreachable (s : CodeValidatorState)
    (hs : s.control_stack ≠ []) : ControlOk s.unreachable := by
  cases hcs : s.control_stack with
  | nil => exact absurd hcs hs
  | cons f rest =>
    simp only [CodeValidatorState.unreachable, hcs]
    constructor
    · simp
    · intro s' h
      simp only [Except.ok.injEq] at h
      subst h
      simp

/-- `validate_function_type` neither panics on the control stack nor
changes it. -/
theorem validate_function_type_spec (s : CodeValidatorState)
    (ty : FunctionType) (hs : s.control_stack ≠ []) :
    (∀ e, s.validate_function_type ty = .error e → e ≠ .panicControlStack) ∧
    (∀ s', s.validate_function_type ty = .ok s' →
      s'.control_stack = s.control_stack) := by
  obtain ⟨herr, hok⟩ := pop_knowns_spec ty.params.reverse s hs
  unfold CodeValidatorState.validate_function_type
  constructor
  · intro e he
    split at he
    · simp only [Except.error.injEq] at he
      subst he
      exact herr _ (by assumption)
    · simp at he
  · intro s' h
    split at h
    · simp at h
    · rename_i s1 heq
      simp only [Except.ok.injEq] at h
      subst h
      rw [push_knowns_control, hok _ heq]


theorem validate_table_index_no_panic (m : Option Nat) :
    ∀ e, validate_table_index m = .error e → e ≠ .panicControlStack := by
  intro e he
  unfold validate_table_index at he
  split at he
  · simp only [Except.error.injEq] at he
    subst he
    simp
  · simp at he

theorem validate_memory_index_no_panic (m : Option Nat) :
    ∀ e, validate_memory_index m = .error e → e ≠ .panicControlStack := by
  intro e he
  unfold validate_memory_index at he
  split at he
  · simp only [Except.error.injEq] at he
    subst he
    simp
  · simp at he

theorem validate_memory_index_and_alignment_no_panic (m : Option Nat)
    (ma : MemoryArgument) (al : Nat) :
    ∀ e, validate_memory_index_and_alignment m ma al = .error e →
      e ≠ .panicControlStack := by
  intro e he
  unfold validate_memory_index_and_alignment at he
  split at he
  · simp only [Except.error.injEq] at he
    subst he
    exact validate_memory_index_no_panic m _ (by assumption)
  · split at he
    · simp only [Except.error.injEq] at he
      subst he
      simp
    · simp at he

theorem get_local_no_panic (locals : List ValueType) (i : Nat) :
    ∀ e, CodeValidatorState.get_local locals i = .error e →
      e ≠ .panicControlStack := by
  intro e he
  unfold CodeValidatorState.get_local at he
  split at he
  · simp at he
  · simp only [Except.error.injEq] at he
    subst he
    simp

theorem get_global_no_panic (globals : List GlobalType) (i : Nat) :
    ∀ e, CodeValidatorState.get_global globals i = .error e →
      e ≠ .panicControlStack := by
  intro e he
  unfold CodeValidatorState.get_global at he
  split at he
  · simp at he
  · simp only [Except.error.injEq] at he
    subst he
    simp

theorem get_func_type_index_no_panic (ftis : List Nat) (fi : Nat) :
    ∀ e, get_func_type_index ftis fi = .error e → e ≠ .panicControlStack := by
  intro e he
  unfold get_func_type_index at he
  split at he
  · simp at he
  · simp only [Except.error.injEq] at he
    subst he
    simp

theorem get_func_type_no_panic (fts : List FunctionType) (ftis : List Nat)
    (fi : Nat) :
    ∀ e, get_func_type fts ftis fi = .error e → e ≠ .panicControlStack := by
  intro e he
  unfold get_func_type at he
  split at he
  · simp only [Except.error.injEq] at he
    subst he
    exact get_func_type_index_no_panic ftis fi _ (by assumption)
  · split at he
    · simp at he
    · simp only [Except.error.injEq] at he
      subst he
      simp

theorem blockType_params_no_panic (bt : BlockType) (fts : List FunctionType) :
    ∀ e, bt.params fts = .error e → e ≠ .panicControlStack := by
  intro e he
  unfold BlockType.params at he
  split at he
  · split at he
    · simp at he
    · simp only [Except.error.injEq] at he
      subst he
      simp
  · simp at he

theorem blockType_results_no_panic (bt : BlockType) (fts : List FunctionType) :
    ∀ e, bt.results fts = .error e → e ≠ .panicControlStack := by
  intro e he
  unfold BlockType.results at he
  split at he
  · simp at he
  · simp at he
  · split at he
    · simp at he
    · simp only [Except.error.injEq] at he
      subst he
      simp

theorem get_label_types_no_panic (kind : ControlFrameKind) (bt : BlockType)
    (fts : List FunctionType) :
    ∀ e, get_label_types kind bt fts = .error e → e ≠ .panicControlStack := by
  intro e he
  unfold get_label_types at he
  split at he
  · exact blockType_params_no_panic bt fts _ he
  · exact blockType_results_no_panic bt fts _ he

theorem read_branch_labels_no_panic :
    ∀ (k : Nat) (bytes : List Nat) (e : CodeValidationError),
      read_branch_labels k bytes = .error e → e ≠ .panicControlStack := by
  intro k
  induction k with
  | zero => intro bytes e he; simp [read_branch_labels] at he
  | succ n ih =>
    intro bytes e he
    simp only [read_branch_labels] at he
    split at he
    · simp only [Except.error.injEq] at he
      subst he
      simp
    · split at he
      · simp only [Except.error.injEq] at he
        subst he
        exact ih _ _ (by assumption)
      · simp at he

/-- `read_branch_labels` returns exactly `k` labels. -/
theorem read_branch_labels_length :
    ∀ (k : Nat) (bytes : List Nat) (labels : List Nat),
      read_branch_labels k bytes = .ok labels → labels.length = k := by
  intro k
  induction k with
  | zero =>
    intro bytes labels h
    simp only [read_branch_labels, Except.ok.injEq] at h
    subst h
    rfl
  | succ n ih =>
    intro bytes labels h
    simp only [read_branch_labels] at h
    split at h
    · simp at h
    · split at h
      · simp at h
      · simp only [Except.ok.injEq] at h
        subst h
        simp only [List.length_cons]
        rw [ih _ _ (by assumption)]

theorem validate_jump_no_panic (s : CodeValidatorState) (li : Nat)
    (hs : s.control_stack ≠ []) :
    ∀ e, s.validate_jump li = .error e → e ≠ .panicControlStack := by
  intro e he
  unfold CodeValidatorState.validate_jump at he
  split at he
  · rename_i hlen
    exact absurd (List.eq_nil_of_length_eq_zero hlen) hs
  · split at he
    · simp only [Except.error.injEq] at he
      subst he
      simp
    · rename_i hlen hle
      split at he
      · simp at he
      · rename_i hget
        have : s.control_stack.length ≤ li := List.get?_eq_none.mp hget
        omega

theorem validate_br_table_targets_no_panic (s : CodeValidatorState)
    (fts : List FunctionType) (hs : s.control_stack ≠ []) :
    ∀ (labels : List Nat) (acc : Option (ControlFrameKind × BlockType)) e,
      validate_br_table_targets s fts labels acc = .error e →
      e ≠ .panicControlStack := by
  intro labels
  induction labels with
  | nil => intro acc e he; simp [validate_br_table_targets] at he
  | cons l rest ih =>
    intro acc e he
    simp only [validate_br_table_targets] at he
    split at he
    · simp only [Except.error.injEq] at he
      subst he
      exact validate_jump_no_panic s l hs _ (by assumption)
    · split at he
      · exact ih _ _ he
      · split at he
        · simp only [Except.error.injEq] at he
          subst he
          exact get_label_types_no_panic _ _ _ _ (by assumption)
        · split at he
          · simp only [Except.error.injEq] at he
            subst he
            exact get_label_types_no_panic _ _ _ _ (by assumption)
          · split at he
            · simp only [Except.error.injEq] at he
              subst he
              simp
            · exact ih _ _ he

/-- The target loop never turns a first target into `none`. -/
theorem validate_br_table_targets_some (s : CodeValidatorState)
    (fts : List FunctionType) :
    ∀ (labels : List Nat) (acc : Option (ControlFrameKind × BlockType)),
      validate_br_table_targets s fts labels acc = .ok none →
      labels = [] ∧ acc = none := by
  intro labels
  induction labels with
  | nil =>
    intro acc h
    simp only [validate_br_table_targets, Except.ok.injEq] at h
    exact ⟨rfl, h⟩
  | cons l rest ih =>
    intro acc h
    simp only [validate_br_table_targets] at h
    split at h
    · simp at h
    · split at h
      · obtain ⟨-, h2⟩ := ih _ h
        simp at h2
      · split at h
        · simp at h
        · split at h
          · simp at h
          · split at h
            · simp at h
            · obtain ⟨-, h2⟩ := ih _ h
              simp at h2


theorem controlOk_push (s : CodeValidatorState) (t : ValueType)
    (hs : s.control_stack ≠ []) : ControlOk (.ok (s.push_known t)) :=
  controlOk_pure _ hs

theorem controlOk_pop1push (t u : ValueType) (s : CodeValidatorState)
    (hs : s.control_stack ≠ []) :
    ControlOk (match s.pop_known t with
      | .error e => .error e
      | .ok (_, s1) => .ok (s1.push_known u)) := by
  obtain ⟨herr, hok⟩ := pop_known_spec s t hs
  split
  · exact controlOk_error _ (herr _ (by assumption))
  · rename_i a s1 heq
    exact controlOk_pure _ (by rw [show (s1.push_known u).control_stack =
      s1.control_stack from rfl, hok _ _ heq]; exact hs)

theorem controlOk_pop2push (t1 t2 u : ValueType) (s : CodeValidatorState)
    (hs : s.control_stack ≠ []) :
    ControlOk (match s.pop_known t1 with
      | .error e => .error e
      | .ok (_, s1) =>
        match s1.pop_known t2 with
        | .error e => .error e
        | .ok (_, s2) => .ok (s2.push_known u)) := by
  obtain ⟨herr, hok⟩ := pop_known_spec s t1 hs
  split
  · exact controlOk_error _ (herr _ (by assumption))
  · rename_i a s1 heq
    have h1 : s1.control_stack ≠ [] := by rw [hok _ _ heq]; exact hs
    obtain ⟨herr2, hok2⟩ := pop_known_spec s1 t2 h1
    split
    · exact controlOk_error _ (herr2 _ (by assumption))
    · rename_i a2 s2 heq2
      exact controlOk_pure _ (by rw [show (s2.push_known u).control_stack =
        s2.control_stack from rfl, hok2 _ _ heq2]; exact h1)

theorem controlOk_load (s : CodeValidatorState) (mmi : Option Nat)
    (ma : MemoryArgument) (al : Nat) (rt : ValueType)
    (hs : s.control_stack ≠ []) :
    ControlOk (s.validate_load mmi ma al rt) := by
  unfold CodeValidatorState.validate_load
  split
  · exact controlOk_error _
      (validate_memory_index_and_alignment_no_panic mmi ma al _ (by assumption))
  · obtain ⟨herr, hok⟩ := pop_known_spec s .i32 hs
    split
    · exact controlOk_error _ (herr _ (by assumption))
    · rename_i a s1 heq
      exact controlOk_pure _ (by rw [show (s1.push_known rt).control_stack =
        s1.control_stack from rfl, hok _ _ heq]; exact hs)

theorem controlOk_store (s : CodeValidatorState) (mmi : Option Nat)
    (ma : MemoryArgument) (al : Nat) (pt : ValueType)
    (hs : s.control_stack ≠ []) :
    ControlOk (s.validate_store mmi ma al pt) := by
  unfold CodeValidatorState.validate_store
  split
  · exact controlOk_error _
      (validate_memory_index_and_alignment_no_panic mmi ma al _ (by assumption))
  · obtain ⟨herr, hok⟩ := pop_known_spec s pt hs
    split
    · exact controlOk_error _ (herr _ (by assumption))
    · rename_i a s1 heq
      have h1 : s1.control_stack ≠ [] := by rw [hok _ _ heq]; exact hs
      obtain ⟨herr2, hok2⟩ := pop_known_spec s1 .i32 h1
      split
      · exact controlOk_error _ (herr2 _ (by assumption))
      · rename_i a2 s2 heq2
        exact controlOk_pure _ (by rw [hok2 _ _ heq2]; exact h1)

theorem controlOk_validate_block_type (s : CodeValidatorState)
    (kind : ControlFrameKind) (bt : BlockType) (fts : List FunctionType)
    (hs : s.control_stack ≠ []) :
    ControlOk (s.validate_block_type kind bt fts) := by
  unfold CodeValidatorState.validate_block_type
  split
  · exact controlOk_error _ (blockType_params_no_panic bt fts _ (by assumption))
  · rename_i params heq
    obtain ⟨herr, hok⟩ := pop_knowns_spec params s hs
    split
    · exact controlOk_error _ (herr _ (by assumption))
    · rename_i s1 heq1
      exact controlOk_pure _ (by
        simp [CodeValidatorState.push_control_frame])

theorem controlOk_if (s : CodeValidatorState) (bt : BlockType)
    (fts : List FunctionType) (hs : s.control_stack ≠ []) :
    ControlOk (match s.pop_known .i32 with
      | .error e => .error e
      | .ok (_, s1) => s1.validate_block_type .if_ bt fts) := by
  obtain ⟨herr, hok⟩ := pop_known_spec s .i32 hs
  split
  · exact controlOk_error _ (herr _ (by assumption))
  · rename_i a s1 heq
    exact controlOk_validate_block_type s1 _ bt fts (by rw [hok _ _ heq]; exact hs)

theorem pop_control_frame_no_panic (s : CodeValidatorState)
    (fts : List FunctionType) (hs : s.control_stack ≠ []) :
    ∀ e, s.pop_control_frame fts = .error e → e ≠ .panicControlStack := by
  intro e he
  cases hcs : s.control_stack with
  | nil => exact absurd hcs hs
  | cons f rest =>
    simp only [CodeValidatorState.pop_control_frame, hcs] at he
    split at he
    · rename_i e1 hinner
      simp only [Except.error.injEq] at he
      subst he
      split at hinner
      · simp at hinner
      · split at hinner
        · simp only [Except.error.injEq] at hinner
          subst hinner
          exact (pop_known_spec s _ hs).1 _ (by assumption)
        · simp at hinner
      · split at hinner
        · simp only [Except.error.injEq] at hinner
          subst hinner
          simp
        · exact (pop_knowns_spec _ s hs).1 _ hinner
    · rename_i s1 hinner
      have h1 : s1.control_stack = s.control_stack := by
        split at hinner
        · simp only [Except.ok.injEq] at hinner
          subst hinner
          rfl
        · split at hinner
          · simp at hinner
          · simp only [Except.ok.injEq] at hinner
            subst hinner
            exact (pop_known_spec s _ hs).2 _ _ (by assumption)
        · split at hinner
          · simp at hinner
          · exact (pop_knowns_spec _ s hs).2 _ hinner
      split at he
      · simp only [Except.error.injEq] at he
        subst he
        simp
      · split at he
        · rename_i hnil
          rw [h1, hcs] at hnil
          simp at hnil
        · simp at he

theorem controlOk_else (s : CodeValidatorState) (fts : List FunctionType)
    (hs : s.control_stack ≠ []) :
    ControlOk (match s.pop_control_frame fts with
      | .error e => .error e
      | .ok (frame, s1) =>
        .ok (s1.push_control_frame .else_ frame.block_type)) := by
  split
  · exact controlOk_error _ (pop_control_frame_no_panic s fts hs _ (by assumption))
  · exact controlOk_pure _ (by simp [CodeValidatorState.push_control_frame])

theorem controlOk_branch (s : CodeValidatorState) (li : Nat)
    (fts : List FunctionType) (hs : s.control_stack ≠ []) :
    ControlOk (match s.validate_jump li with
      | .error e => .error e
      | .ok (kind, block_type) =>
        match get_label_types kind block_type fts with
        | .error e => .error e
        | .ok label_types =>
          match s.pop_knowns label_types.reverse with
          | .error e => .error e
          | .ok s1 => s1.unreachable) := by
  split
  · exact controlOk_error _ (validate_jump_no_panic s li hs _ (by assumption))
  · rename_i kind bt heq
    split
    · exact controlOk_error _ (get_label_types_no_panic _ _ _ _ (by assumption))
    · rename_i lt heq2
      obtain ⟨herr, hok⟩ := pop_knowns_spec lt.reverse s hs
      split
      · exact controlOk_error _ (herr _ (by assumption))
      · rename_i s1 heq3
        exact controlOk_unreachable s1 (by rw [hok _ heq3]; exact hs)

theorem controlOk_branchIf (s : CodeValidatorState) (li : Nat)
    (fts : List FunctionType) (hs : s.control_stack ≠ []) :
    ControlOk (match s.validate_jump li with
      | .error e => .error e
      | .ok (kind, block_type) =>
        match get_label_types kind block_type fts with
        | .error e => .error e
        | .ok label_types =>
          match s.pop_knowns label_types.reverse with
          | .error e => .error e
          | .ok s1 => (s1.push_knowns label_types).unreachable) := by
  split
  · exact controlOk_error _ (validate_jump_no_panic s li hs _ (by assumption))
  · rename_i kind bt heq
    split
    · exact controlOk_error _ (get_label_types_no_panic _ _ _ _ (by assumption))
    · rename_i lt heq2
      obtain ⟨herr, hok⟩ := pop_knowns_spec lt.reverse s hs
      split
      · exact controlOk_error _ (herr _ (by assumption))
      · rename_i s1 heq3
        exact controlOk_unreachable _ (by
          rw [push_knowns_control, hok _ heq3]; exact hs)

theorem controlOk_branchTable (s : CodeValidatorState)
    (btr : BranchTableReader) (fts : List FunctionType)
    (hs : s.control_stack ≠ []) :
    ControlOk (match s.pop_known .i32 with
      | .error e => .error e
      | .ok (_, s1) =>
        match read_branch_labels (btr.num_labels + 1) btr.bytes with
        | .error e => .error e
        | .ok labels =>
          match validate_br_table_targets s1 fts labels none with
          | .error e => .error e
          | .ok none => .error .panicControlStack
          | .ok (some (kind, block_type)) =>
            match get_label_types kind block_type fts with
            | .error e => .error e
            | .ok label_types =>
              match s1.pop_knowns label_types.reverse with
              | .error e => .error e
              | .ok s2 => s2.unreachable) := by
  obtain ⟨herr, hok⟩ := pop_known_spec s .i32 hs
  split
  · exact controlOk_error _ (herr _ (by assumption))
  · rename_i a s1 heq
    have h1 : s1.control_stack ≠ [] := by rw [hok _ _ heq]; exact hs
    split
    · exact controlOk_error _ (read_branch_labels_no_panic _ _ _ (by assumption))
    · rename_i labels heq2
      split
      · exact controlOk_error _
          (validate_br_table_targets_no_panic s1 fts h1 _ _ _ (by assumption))
      · rename_i hnone
        obtain ⟨hl, -⟩ := validate_br_table_targets_some s1 fts _ _ hnone
        have := read_branch_labels_length _ _ _ heq2
        rw [hl] at this
        simp at this
      · rename_i kind bt heq3
        split
        · exact controlOk_error _ (get_label_types_no_panic _ _ _ _ (by assumption))
        · rename_i lt heq4
          obtain ⟨herr2, hok2⟩ := pop_knowns_spec lt.reverse s1 h1
          split
          · exact controlOk_error _ (herr2 _ (by assumption))
          · rename_i s2 heq5
            exact controlOk_unreachable s2 (by rw [hok2 _ heq5]; exact h1)

theorem controlOk_return (s : CodeValidatorState) (fts : List FunctionType)
    (hs : s.control_stack ≠ []) :
    ControlOk (match s.control_stack.getLast? with
      | none => .error .panicControlStack
      | some frame =>
        match (match frame.block_type with
          | .empty => (.ok s : Except CodeValidationError CodeValidatorState)
          | .valueType ty =>
            match s.pop_known ty with
            | .error e => .error e
            | .ok (_, s') => .ok s'
          | .typeIndex type_index =>
            match fts.get? type_index with
            | some ty => s.pop_knowns ty.results.reverse
            | none => .error (.invalidTypeIndex type_index)) with
        | .error e => .error e
        | .ok s1 => s1.unreachable) := by
  split
  · rename_i hlast
    exact absurd (List.getLast?_eq_none_iff.mp hlast) hs
  · rename_i frame hlast
    split
    · rename_i e1 hinner
      refine controlOk_error _ ?_
      split at hinner
      · simp at hinner
      · split at hinner
        · simp only [Except.error.injEq] at hinner
          subst hinner
          exact (pop_known_spec s _ hs).1 _ (by assumption)
        · simp at hinner
      · split at hinner
        · exact (pop_knowns_spec _ s hs).1 _ hinner
        · simp only [Except.error.injEq] at hinner
          subst hinner
          simp
    · rename_i s1 hinner
      have h1 : s1.control_stack = s.control_stack := by
        split at hinner
        · simp only [Except.ok.injEq] at hinner
          subst hinner
          rfl
        · split at hinner
          · simp at hinner
          · simp only [Except.ok.injEq] at hinner
            subst hinner
            exact (pop_known_spec s _ hs).2 _ _ (by assumption)
        · split at hinner
          · exact (pop_knowns_spec _ s hs).2 _ hinner
          · simp at hinner
      exact controlOk_unreachable s1 (by rw [h1]; exact hs)

theorem controlOk_call (s : CodeValidatorState) (fi : Nat)
    (fts : List FunctionType) (ftis : List Nat)
    (hs : s.control_stack ≠ []) :
    ControlOk (match get_func_type fts ftis fi with
      | .error e => .error e
      | .ok ty => s.validate_function_type ty) := by
  split
  · exact controlOk_error _ (get_func_type_no_panic fts ftis fi _ (by assumption))
  · rename_i ty heq
    obtain ⟨herr, hok⟩ := validate_function_type_spec s ty hs
    constructor
    · intro hcon
      exact herr _ hcon rfl
    · intro s' hok'
      rw [hok _ hok']
      exact hs

theorem controlOk_callIndirect (s : CodeValidatorState) (ti : Nat)
    (fts : List FunctionType) (mti : Option Nat)
    (hs : s.control_stack ≠ []) :
    ControlOk (match validate_table_index mti with
      | .error e => .error e
      | .ok () =>
        match fts.get? ti with
        | some ty =>
          (match s.pop_known .i32 with
           | .error e => .error e
           | .ok (_, s1) => s1.validate_function_type ty)
        | none => .error (.invalidTypeIndex ti)) := by
  split
  · exact controlOk_error _ (validate_table_index_no_panic mti _ (by assumption))
  · split
    · rename_i ty hget
      obtain ⟨herr, hok⟩ := pop_known_spec s .i32 hs
      split
      · exact controlOk_error _ (herr _ (by assumption))
      · rename_i a s1 heq
        have h1 : s1.control_stack ≠ [] := by rw [hok _ _ heq]; exact hs
        obtain ⟨herr2, hok2⟩ := validate_function_type_spec s1 ty h1
        constructor
        · intro hcon
          exact herr2 _ hcon rfl
        · intro s' hok'
          rw [hok2 _ hok']
          exact h1
    · exact controlOk_error _ (by simp)

theorem controlOk_drop (s : CodeValidatorState) (hs : s.control_stack ≠ []) :
    ControlOk (match s.pop_operand with
      | .error e => .error e
      | .ok (_, s1) => .ok s1) := by
  obtain ⟨herr, hok⟩ := pop_operand_spec s hs
  split
  · exact controlOk_error _ (herr _ (by assumption))
  · rename_i a s1 heq
    exact controlOk_pure _ (by rw [hok _ _ heq]; exact hs)

theorem controlOk_select (s : CodeValidatorState) (hs : s.control_stack ≠ []) :
    ControlOk (match s.pop_known .i32 with
      | .error e => .error e
      | .ok (_, s1) =>
        match s1.pop_operand with
        | .error e => .error e
        | .ok (first, s2) =>
          match s2.pop_operand with
          | .error e => .error e
          | .ok (second, s3) =>
            if first.is_unknown ∨ second.is_unknown ∨ first ≠ second then
              .error (.typeMismatch first second)
            else .ok (s3.push_operand second)) := by
  obtain ⟨herr, hok⟩ := pop_known_spec s .i32 hs
  split
  · exact controlOk_error _ (herr _ (by assumption))
  · rename_i a s1 heq
    have h1 : s1.control_stack ≠ [] := by rw [hok _ _ heq]; exact hs
    obtain ⟨herr2, hok2⟩ := pop_operand_spec s1 h1
    split
    · exact controlOk_error _ (herr2 _ (by assumption))
    · rename_i first s2 heq2
      have h2 : s2.control_stack ≠ [] := by rw [hok2 _ _ heq2]; exact h1
      obtain ⟨herr3, hok3⟩ := pop_operand_spec s2 h2
      split
      · exact controlOk_error _ (herr3 _ (by assumption))
      · rename_i second s3 heq3
        have h3 : s3.control_stack ≠ [] := by rw [hok3 _ _ heq3]; exact h2
        split
        · exact controlOk_error _ (by simp)
        · exact controlOk_pure _ h3

theorem controlOk_localGet (s : CodeValidatorState)
    (locals : List ValueType) (li : Nat) (hs : s.control_stack ≠ []) :
    ControlOk (match CodeValidatorState.get_local locals li with
      | .error e => .error e
      | .ok local_type => .ok (s.push_known local_type)) := by
  split
  · exact controlOk_error _ (get_local_no_panic locals li _ (by assumption))
  · exact controlOk_pure _ hs

theorem controlOk_localSet (s : CodeValidatorState)
    (locals : List ValueType) (li : Nat) (hs : s.control_stack ≠ []) :
    ControlOk (match CodeValidatorState.get_local locals li with
      | .error e => .error e
      | .ok local_type =>
        match s.pop_known local_type with
        | .error e => .error e
        | .ok (_, s1) => .ok s1) := by
  split
  · exact controlOk_error _ (get_local_no_panic locals li _ (by assumption))
  · rename_i t hget
    obtain ⟨herr, hok⟩ := pop_known_spec s t hs
    split
    · exact controlOk_error _ (herr _ (by assumption))
    · rename_i a s1 heq
      exact controlOk_pure _ (by rw [hok _ _ heq]; exact hs)

theorem controlOk_localTee (s : CodeValidatorState)
    (locals : List ValueType) (li : Nat) (hs : s.control_stack ≠ []) :
    ControlOk (match CodeValidatorState.get_local locals li with
      | .error e => .error e
      | .ok local_type =>
        match s.pop_known local_type with
        | .error e => .error e
        | .ok (_, s1) => .ok (s1.push_known local_type)) := by
  split
  · exact controlOk_error _ (get_local_no_panic locals li _ (by assumption))
  · rename_i t hget
    obtain ⟨herr, hok⟩ := pop_known_spec s t hs
    split
    · exact controlOk_error _ (herr _ (by assumption))
    · rename_i a s1 heq
      exact controlOk_pure _ (by rw [show (s1.push_known t).control_stack =
        s1.control_stack from rfl, hok _ _ heq]; exact hs)

theorem controlOk_globalGet (s : CodeValidatorState)
    (globals : List GlobalType) (gi : Nat) (hs : s.control_stack ≠ []) :
    ControlOk (match CodeValidatorState.get_global globals gi with
      | .error e => .error e
      | .ok global_type => .ok (s.push_known global_type.var_type)) := by
  split
  · exact controlOk_error _ (get_global_no_panic globals gi _ (by assumption))
  · exact controlOk_pure _ hs

theorem controlOk_globalSet (s : CodeValidatorState)
    (globals : List GlobalType) (gi : Nat) (hs : s.control_stack ≠ []) :
    ControlOk (match CodeValidatorState.get_global globals gi with
      | .error e => .error e
      | .ok global_type =>
        match s.pop_known global_type.var_type with
        | .error e => .error e
        | .ok (_, s1) =>
          if ¬ global_type.mutable then
            .error (.settingImmutableGlobal gi)
          else .ok s1) := by
  split
  · exact controlOk_error _ (get_global_no_panic globals gi _ (by assumption))
  · rename_i gt hget
    obtain ⟨herr, hok⟩ := pop_known_spec s gt.var_type hs
    split
    · exact controlOk_error _ (herr _ (by assumption))
    · rename_i a s1 heq
      split
      · exact controlOk_error _ (by simp)
      · exact controlOk_pure _ (by rw [hok _ _ heq]; exact hs)

theorem controlOk_memorySize (s : CodeValidatorState) (mmi : Option Nat)
    (hs : s.control_stack ≠ []) :
    ControlOk (match validate_memory_index mmi with
      | .error e => .error e
      | .ok () => .ok (s.push_known .i32)) := by
  split
  · exact controlOk_error _ (validate_memory_index_no_panic mmi _ (by assumption))
  · exact controlOk_pure _ hs

theorem controlOk_memoryGrow (s : CodeValidatorState) (mmi : Option Nat)
    (hs : s.control_stack ≠ []) :
    ControlOk (match validate_memory_index mmi with
      | .error e => .error e
      | .ok () =>
        match s.pop_known .i32 with
        | .error e => .error e
        | .ok (_, s1) => .ok (s1.push_known .i32)) := by
  split
  · exact controlOk_error _ (validate_memory_index_no_panic mmi _ (by assumption))
  · exact controlOk_pop1push .i32 .i32 s hs


set_option maxHeartbeats 3200000 in
/-- C10: throughout validation of a single function body the control stack is
never empty: `CodeValidatorState.new` pushes one frame at construction, the
`End` opcode pops nothing, and the only frame pop during instruction
validation (the `Else` case) immediately pushes a replacement frame; hence
`validate_instruction` never reaches the `panicControlStack` outcome that
models the unwraps on `control_stack.last()` in `pop_operand` and
`unreachable`, and it preserves nonemptiness of the control stack. -/
theorem c10_control_stack_never_empty :
    (∀ type_index, (CodeValidatorState.new type_index).control_stack ≠ []) ∧
    (∀ (s : CodeValidatorState) (instruction : Instruction)
      (globals : List GlobalType) (locals : List ValueType)
      (function_types : List FunctionType) (function_type_indices : List Nat)
      (max_table_index max_memory_index : Option Nat),
      s.control_stack ≠ [] →
      validate_instruction s instruction globals locals function_types
        function_type_indices max_table_index max_memory_index ≠
        .error .panicControlStack ∧
      ∀ s1, validate_instruction s instruction globals locals function_types
        function_type_indices max_table_index max_memory_index = .ok s1 →
        s1.control_stack ≠ []) := by
  constructor
  · intro type_index
    simp [CodeValidatorState.new]
  · intro s instruction globals locals function_types function_type_indices
      max_table_index max_memory_index hs
    show ControlOk (validate_instruction s instruction globals locals
      function_types function_type_indices max_table_index max_memory_index)
    cases instruction <;>
      first
        | exact controlOk_pop2push _ _ _ s hs
        | exact controlOk_pop1push _ _ s hs
        | exact controlOk_load s _ _ _ _ hs
        | exact controlOk_store s _ _ _ _ hs
        | exact controlOk_push s _ hs
        | exact controlOk_pure _ hs
        | exact controlOk_unreachable s hs
        | exact controlOk_validate_block_type s _ _ _ hs
        | exact controlOk_if s _ _ hs
        | exact controlOk_else s _ hs
        | exact controlOk_branch s _ _ hs
        | exact controlOk_branchIf s _ _ hs
        | exact controlOk_branchTable s _ _ hs
        | exact controlOk_return s _ hs
        | exact controlOk_call s _ _ _ hs
        | exact controlOk_callIndirect s _ _ _ hs
        | exact controlOk_drop s hs
        | exact controlOk_select s hs
        | exact controlOk_localGet s _ _ hs
        | exact controlOk_localSet s _ _ hs
        | exact controlOk_localTee s _ _ hs
        | exact controlOk_globalGet s _ _ hs
        | exact controlOk_globalSet s _ _ hs
        | exact controlOk_memorySize s _ hs
        | exact controlOk_memoryGrow s _ hs

/-- Witness for C10 at concrete inputs. -/
theorem c10_witness :
    (CodeValidatorState.new 0).control_stack ≠ [] ∧
    ((CodeValidatorState.new 0).control_stack ≠ [] ∧
      validate_instruction (CodeValidatorState.new 0) .nop [] [] [] [] none none ≠
        .error .panicControlStack) :=
  ⟨c10_control_stack_never_empty.1 0,
    (by decide : (CodeValidatorState.new 0).control_stack ≠ []),
    (c10_control_stack_never_empty.2 (CodeValidatorState.new 0) .nop [] [] [] []
      none none (by decide)).1⟩


/-- C2: the constant-expression checker accepts `global.get 0; end` against a
context whose global 0 is a MUTABLE `i32` when the expected type is `i32`.
The source (`is_expr_const_and_of_right_type` in `src/validators/code.rs`)
looks up the global only to fetch its value type and never consults its
mutability or import status, so the "immutable imported global" restriction
stated in the specification is not enforced: the checker returns `Ok` here
instead of `InvalidInitExpr`. -/
theorem c2_mutable_global_init_accepted :
    is_expr_const_and_of_right_type [0x23, 0x00, 0x0B] .i32
      [⟨.i32, true⟩] = .ok () := rfl

end Water
